import Mathlib

/-!
# Verification of the Hostego Print print-job pipeline

Shallow embedding, in Lean 4, of the print-job orchestration pipeline of the
Hostego Print desktop application (an Electron print-relay app).  The source
corpus contains several historical revisions of the same pipeline:

* `index.js` — two revisions of `printJob`: the first (`printJob1`)
  classifies six file kinds, its load race resolves on timeout and its
  PDF.js render wait is swallowed by a `catch`; the second (`printJob2`,
  lines 670-840) handles only PDFs and images, resolves the printer
  eagerly, keeps the quantity loop, its load races reject on timeout and
  its render wait propagates;
* `src/unnamed/part_002` — `printImages` (all-image fast path with
  `copies = qty`, and a mixed path that rasterizes PDFs to temp PNG files);
* `src/unnamed/part_004` — `printJob` with LibreOffice document conversion,
  a per-job temp directory, and progress callbacks;
* `src/unnamed/part_006` — `printJob` with LibreOffice conversion of
  word/excel/csv/text files and a `finally` temp-file cleanup.

Pure helpers (`getFileType`, `isPdf`, `isDocument`, the quantity
normalisation, printer resolution, the downloaders) are embedded directly.
The orchestrators are embedded as functions from a `Job` and an environment
`Env` (an oracle fixing the outcome of every external step: printer
enumeration, page loads, PDF.js render waits, downloads, conversions,
rasterizations, print callbacks) to a result together with a trace `St`
recording the observable effects: temp artifacts created/deleted, print
submissions with their copy counts, and whether any rendering/conversion
work started.
-/

/-- Decidable equality for `Except`, so that concrete runs of the models can
be checked by `decide`. -/
instance exceptDecEq {ε α : Type} [DecidableEq ε] [DecidableEq α] :
    DecidableEq (Except ε α) := fun
  | .error e, .error f =>
    if h : e = f then .isTrue (by rw [h])
    else .isFalse (by intro hh; cases hh; exact h rfl)
  | .error _, .ok _ => .isFalse (by intro h; cases h)
  | .ok _, .error _ => .isFalse (by intro h; cases h)
  | .ok a, .ok b =>
    if h : a = b then .isTrue (by rw [h])
    else .isFalse (by intro hh; cases hh; exact h rfl)

/-! ## String helpers

JavaScript string operations used by the classifiers: `toLowerCase`,
`String.prototype.includes`, and the extension regexes of the form
`/\.ext($|[?#])/i` (extension followed by end-of-string, `?` or `#`).
-/

/-- Lowercase a string character by character (JS `toLowerCase` on the
ASCII URLs and hints this pipeline sees). -/
def lowerStr (s : String) : String := ⟨s.data.map Char.toLower⟩

/-- `isPrefixL pat s`: `pat` is a prefix of `s` (decidable, on char lists). -/
def isPrefixL : List Char → List Char → Bool
  | [], _ => true
  | _ :: _, [] => false
  | a :: as, b :: bs => a == b && isPrefixL as bs

/-- `containsL pat s`: `pat` occurs as a contiguous substring of `s`
(JS `s.includes(pat)`). -/
def containsL (pat : List Char) : List Char → Bool
  | [] => isPrefixL pat []
  | c :: rest => isPrefixL pat (c :: rest) || containsL pat rest

/-- JS `s.includes(pat)` on strings. -/
def containsStr (s pat : String) : Bool := containsL pat.data s.data

/-- The character following an extension must be end-of-string, `?` or `#`
(the `($|[?#])` part of the URL-extension regexes). -/
def followerOk : List Char → Bool
  | [] => true
  | c :: _ => c == '?' || c == '#'

/-- `hasExtL ext s`: the regex `/ext($|[?#])/` matches `s`, i.e. `ext`
occurs at some position of `s` followed by end-of-string, `?` or `#`. -/
def hasExtL (ext : List Char) : List Char → Bool
  | [] => isPrefixL ext [] && followerOk []
  | c :: rest =>
    (isPrefixL ext (c :: rest) && followerOk ((c :: rest).drop ext.length))
      || hasExtL ext rest

/-- `/\.ext($|[?#])/i` applied to an already-lowercased string. -/
def hasExt (ext s : String) : Bool := hasExtL ext.data s.data

/-! ## The print job request

`PRINT_JOB` request fields used by the pipeline.  `quantity` is modelled by
what `parseInt(quantity, 10)` yields: `none` when the field is missing or
non-numeric (`parseInt` returns `NaN`), `some n` when it parses to the
integer `n`. -/

structure Job where
  images_urls : List String
  quantity : Option Int
  color_mode : Option String
  deviceName : Option String
  printerName : Option String
  file_types : Option (List String)
  deriving Repr, DecidableEq

/-- `String(job.file_types[index] || "")`: the hint at `index`, or `""` when
`file_types` is absent, not an array, too short, or the entry is empty. -/
def ftAt (j : Job) (i : Nat) : String :=
  match j.file_types with
  | none => ""
  | some l => (l.get? i).getD ""

/-- JS truthiness for an optional string: empty string counts as absent. -/
def nzOpt : Option String → Option String
  | none => none
  | some s => if s == "" then none else some s

/-- `job.deviceName || job.printerName` with JS falsy semantics. -/
def jobDevice (j : Job) : Option String :=
  match nzOpt j.deviceName with
  | some d => some d
  | none => nzOpt j.printerName

/-! ## File classification (`getFileType`, `isPdfUrl`, `isPdf`, `isDocument`) -/

inductive FileKind
  | pdf | excel | word | csv | text | image
  deriving Repr, DecidableEq

/-- The hint-matching cascade of `getFileType` in `index.js` (lines 101-124):
returns `none` when the (already lowercased, non-empty) hint matches no
category token, in which case `getFileType` falls through to URL sniffing. -/
def hintKind (ft : String) : Option FileKind :=
  if ft == "pdf" || ft == "application/pdf" || containsStr ft "pdf" then some .pdf
  else if containsStr ft "excel" || containsStr ft "xlsx" || containsStr ft "xls"
      || containsStr ft "spreadsheet" then some .excel
  else if containsStr ft "word" || containsStr ft "docx" || containsStr ft "doc"
      || containsStr ft "document" then some .word
  else if containsStr ft "csv" then some .csv
  else if containsStr ft "text" || containsStr ft "txt" then some .text
  else if containsStr ft "image" || containsStr ft "png" || containsStr ft "jpg"
      || containsStr ft "jpeg" || containsStr ft "gif" || containsStr ft "webp" then some .image
  else none

/-- The hint cascade of `getFileType` in `part_006` (lines 159-180): identical
except that the image row tests only `ft.includes("image")`. -/
def hintKind6 (ft : String) : Option FileKind :=
  if ft == "pdf" || ft == "application/pdf" || containsStr ft "pdf" then some .pdf
  else if containsStr ft "excel" || containsStr ft "xlsx" || containsStr ft "xls"
      || containsStr ft "spreadsheet" then some .excel
  else if containsStr ft "word" || containsStr ft "docx" || containsStr ft "doc"
      || containsStr ft "document" then some .word
  else if containsStr ft "csv" then some .csv
  else if containsStr ft "text" || containsStr ft "txt" then some .text
  else if containsStr ft "image" then some .image
  else none

/-- The URL-extension cascade shared by both `getFileType` revisions
(`index.js` writes `\.xlsx` and `\.xls` as two tests, `part_006` as the
alternation `\.(xlsx?|xls)`; both denote the extension set
{xlsx, xls}, likewise {docx, doc}).  Unrecognized or extensionless URLs
default to `image`. -/
def urlKind (u : String) : FileKind :=
  if hasExt ".pdf" u then .pdf
  else if hasExt ".xlsx" u then .excel
  else if hasExt ".xls" u then .excel
  else if hasExt ".docx" u then .word
  else if hasExt ".doc" u then .word
  else if hasExt ".csv" u then .csv
  else if hasExt ".txt" u then .text
  else if hasExt ".png" u || hasExt ".jpg" u || hasExt ".jpeg" u || hasExt ".gif" u
      || hasExt ".webp" u || hasExt ".bmp" u || hasExt ".svg" u then .image
  else .image

/-- `getFileType(job, url, index)` from `index.js` lines 101-124. -/
def getFileType (j : Job) (url : String) (i : Nat) : FileKind :=
  let urlStr := lowerStr url
  let ft := lowerStr (ftAt j i)
  match (if ft == "" then none else hintKind ft) with
  | some k => k
  | none => urlKind urlStr

/-- `getFileType(job, url, index)` from `part_006` lines 159-180. -/
def getFileType6 (j : Job) (url : String) (i : Nat) : FileKind :=
  let urlStr := lowerStr url
  let ft := lowerStr (ftAt j i)
  match (if ft == "" then none else hintKind6 ft) with
  | some k => k
  | none => urlKind urlStr

/-- `isPdfUrl(url)`: `/\.pdf($|[?#])/i.test(String(url || ""))`. -/
def isPdfUrl (url : String) : Bool := hasExt ".pdf" (lowerStr url)

/-- `isPdf(job, url, index)` (`index.js` lines 549-554, identical in
`part_002` and `part_004`): a hint containing "pdf" decides PDF, a
non-empty hint *not* containing "pdf" decides non-PDF without looking at
the URL, and only an absent/empty hint falls back to `isPdfUrl`. -/
def isPdf (j : Job) (url : String) (i : Nat) : Bool :=
  let ft := lowerStr (ftAt j i)
  if ft != "" && (ft == "pdf" || ft == "application/pdf" || containsStr ft "pdf") then true
  else if ft != "" && !containsStr ft "pdf" then false
  else isPdfUrl url

/-- The office-document extension set of `part_004`'s
`/\.(docx?|xlsx?|pptx?|odt|ods|odp)($|[?#])/i`. -/
def isDocumentUrl (url : String) : Bool :=
  let u := lowerStr url
  hasExt ".doc" u || hasExt ".docx" u || hasExt ".xls" u || hasExt ".xlsx" u
    || hasExt ".ppt" u || hasExt ".pptx" u || hasExt ".odt" u || hasExt ".ods" u
    || hasExt ".odp" u

/-- The `docTypes` table of `part_004.isDocument`. -/
def docTypes : List String :=
  ["doc", "docx", "xls", "xlsx", "ppt", "pptx", "odt", "ods", "odp"]

/-- `isDocument(job, url, index)` from `part_004` lines 47-69: a non-empty
hint equal to or containing a `docTypes` entry decides document, otherwise
fall back to the URL extension check. -/
def isDocument (j : Job) (url : String) (i : Nat) : Bool :=
  let ft := lowerStr (ftAt j i)
  if ft != "" && docTypes.any (fun t => ft == t || containsStr ft t) then true
  else isDocumentUrl url

/-- Disjunction of every entry of the URL-extension table of `getFileType`
(on an already-lowercased URL): used to state "no extension matches". -/
def matchesAnyExt (u : String) : Bool :=
  hasExt ".pdf" u || hasExt ".xlsx" u || hasExt ".xls" u || hasExt ".docx" u
    || hasExt ".doc" u || hasExt ".csv" u || hasExt ".txt" u || hasExt ".png" u
    || hasExt ".jpg" u || hasExt ".jpeg" u || hasExt ".gif" u || hasExt ".webp" u
    || hasExt ".bmp" u || hasExt ".svg" u

/-! ## Quantity normalisation

`const qty = Math.max(1, parseInt(quantity, 10) || 1);` — `parseInt` yields
`NaN` for a missing or non-numeric field (`NaN || 1` is `1`), `0 || 1` is
`1`, and `Math.max(1, ·)` clamps negatives. -/

/-- The effective copy count. -/
def effectiveQty (q : Option Int) : Int :=
  let p : Int :=
    match q with
    | none => 1
    | some n => if n = 0 then 1 else n
  max 1 p

/-- The effective copy count as a natural number (it is always ≥ 1). -/
def effQtyNat (q : Option Int) : Nat := (effectiveQty q).toNat

/-! ## Printers and printer resolution -/

/-- A printer descriptor as surfaced by Electron (only the fields the
pipeline reads). -/
structure Printer where
  name : String
  isDefault : Bool
  deriving Repr, DecidableEq

/-- What `webContents` offers for printer enumeration: `getPrintersAsync`
(which may throw), the legacy `getPrinters` (which may throw), or
neither. -/
inductive PrinterQuery
  | hasAsync (r : Except Unit (List Printer))
  | hasSync (r : Except Unit (List Printer))
  | neither
  deriving Repr

/-- `getPrintersList(webContents)` (`index.js` lines 22-35, identical in
`part_002`/`part_004`/`part_006`): `[]` for a missing `webContents`, the
enumerated list on success, and `[]` when the OS query throws (the
exception is caught and logged) or neither API exists. -/
def getPrintersList : Option PrinterQuery → List Printer
  | none => []
  | some (.hasAsync (.ok ps)) => ps
  | some (.hasAsync (.error _)) => []
  | some (.hasSync (.ok ps)) => ps
  | some (.hasSync (.error _)) => []
  | some .neither => []

/-- Errors thrown by the pipeline (the constructors stand for the thrown
`Error` messages; `printerNotFound` carries the requested device name the
message interpolates). -/
inductive PrintError
  | badInput
  | noPrinters
  | printerNotFound (name : String)
  | libreRequired
  | downloadFailed
  | conversionFailed
  | rasterFailed
  | loadTimeout
  | renderFailed
  | renderTimeout
  | printFailed
  deriving Repr, DecidableEq

/-- `getTargetPrinter` / `resolveTargetDevice` (`index.js` lines 305-315,
`part_002` lines 223-235, `part_004` lines 596-606, `part_006` lines
329-339 — identical structure): empty list throws "No printers found.";
with no requested device return the OS default else the first entry; a
requested device must appear by exact name match or the job throws
`Printer "<name>" not found.`. -/
def resolvePrinter (dev : Option String) (printers : List Printer) :
    Except PrintError (Option String) :=
  match printers with
  | [] => .error .noPrinters
  | p :: ps =>
    match dev with
    | none =>
      match (p :: ps).find? (fun q => q.isDefault) with
      | some d => .ok (some d.name)
      | none => .ok (some p.name)
    | some dn =>
      if (p :: ps).any (fun q => q.name == dn) then .ok (some dn)
      else .error (.printerNotFound dn)

/-! ## The execution environment and effect trace

`Env` is an oracle fixing the outcome of every external interaction, indexed
by the number of interactions of that kind performed so far.  `St` is the
trace of observable effects accumulated by a run. -/

/-- Outcome of a PDF.js render wait (the polled `window.pdfRendered` /
`window.pdfError` / attempt-budget check). -/
inductive RenderRes
  | ok | err | timeout
  deriving Repr, DecidableEq

structure Env where
  /-- The live printer list `getPrintersList` yields for the print window. -/
  printers : List Printer
  /-- Whether the LibreOffice executable exists (`isLibreOfficeInstalled`). -/
  libreInstalled : Bool
  /-- Outcome of the n-th page-load readiness race. -/
  loadOk : Nat → Bool
  /-- Outcome of the n-th PDF.js render wait. -/
  renders : Nat → RenderRes
  /-- Outcome of the n-th `contents.print` callback. -/
  printOk : Nat → Bool
  /-- Outcome of the n-th source-file download. -/
  dl : Nat → Bool
  /-- Outcome of the n-th document conversion. -/
  convOk : Nat → Bool
  /-- Outcome of the n-th `pdfToImages` rasterization: `none` when PDF.js
  throws, `some n` for a successful rasterization into `n` page images. -/
  raster : Nat → Option Nat

/-- The observable-effect trace of a run. -/
structure St where
  loads : Nat
  rendersC : Nat
  printsC : Nat
  dlC : Nat
  convC : Nat
  rastersC : Nat
  /-- Temp artifacts created (downloaded files, converted PDFs, rasterized
  page images, the per-job temp directory). -/
  created : Nat
  /-- Temp artifacts deleted. -/
  deleted : Nat
  /-- Copy count of each print submission, in submission order. -/
  subs : List Nat
  /-- Whether any rendering/conversion work (page load, download,
  conversion, rasterization) has been performed. -/
  work : Bool
  deriving Repr, DecidableEq

def st0 : St := ⟨0, 0, 0, 0, 0, 0, 0, 0, [], false⟩

/-- A page load whose readiness race rejects on timeout
(`Promise.race([readyPromise, reject after 10-30s])` as in `part_002`,
`part_004`, `part_006` and the second `index.js` revision). -/
def loadStepR (env : Env) (st : St) : Except PrintError Unit × St :=
  ((if env.loadOk st.loads then .ok () else .error .loadTimeout),
   { st with loads := st.loads + 1, work := true })

/-- A page load in the first `index.js` revision (lines 384-393): the race
partner `setTimeout(resolve, 10000)` resolves, so the load wait never
fails. -/
def loadStep1 (st : St) : St :=
  { st with loads := st.loads + 1, work := true }

/-- A PDF.js render wait whose rejection propagates (`part_002` pages are
pre-rasterized so this appears in `part_004`, `part_006` and the second
`index.js` revision). -/
def renderWaitStep (env : Env) (st : St) : Except PrintError Unit × St :=
  ((match env.renders st.rendersC with
    | .ok => .ok ()
    | .err => .error .renderFailed
    | .timeout => .error .renderTimeout),
   { st with rendersC := st.rendersC + 1 })

/-- The first `index.js` revision's render wait (lines 399-414): the
`executeJavaScript` rejection is caught and only logged
(`console.log("PDF render issue:", ...)`), so the outcome is discarded. -/
def renderWaitSwallow (env : Env) (st : St) : St :=
  match env.renders st.rendersC with
  | _ => { st with rendersC := st.rendersC + 1 }

/-- A `contents.print` submission with the given `copies` value; the
callback (or the surrounding 30s race where present) decides success. -/
def printStep (env : Env) (st : St) (copies : Nat) : Except PrintError Unit × St :=
  ((if env.printOk st.printsC then .ok () else .error .printFailed),
   { st with printsC := st.printsC + 1, subs := st.subs ++ [copies] })

/-- A source-file download; `mkTemp` records whether a successful download
leaves a temp file on disk (`part_004`/`part_006` write to a path, the
first `index.js` revision buffers in memory). -/
def dlStep (env : Env) (mkTemp : Bool) (st : St) : Except PrintError Unit × St :=
  ((if env.dl st.dlC then .ok () else .error .downloadFailed),
   { st with dlC := st.dlC + 1, work := true,
             created := st.created + (if env.dl st.dlC && mkTemp then 1 else 0) })

/-- A document conversion; `mkTemp` records whether a successful conversion
creates a temp PDF (LibreOffice output) as opposed to an in-memory HTML
string (mammoth/xlsx in the first `index.js` revision). -/
def convStep (env : Env) (mkTemp : Bool) (st : St) : Except PrintError Unit × St :=
  ((if env.convOk st.convC then .ok () else .error .conversionFailed),
   { st with convC := st.convC + 1, work := true,
             created := st.created + (if env.convOk st.convC && mkTemp then 1 else 0) })

/-- `pdfToImages(url)` (`part_002` lines 45-75): rasterizes every page into
a temp PNG; a PDF.js failure rejects, a success yields the page count and
leaves one temp file per page. -/
def rasterStep (env : Env) (st : St) : Except PrintError Nat × St :=
  ((match env.raster st.rastersC with
    | none => .error .rasterFailed
    | some n => .ok n),
   { st with rastersC := st.rastersC + 1, work := true,
             created := st.created + (env.raster st.rastersC).getD 0 })

/-- Delete every tracked temp artifact (the `tempFiles.forEach(unlink)` /
`fs.rmSync(tempDir, { recursive: true })` cleanups remove everything the
job created). -/
def cleanupAll (st : St) : St := { st with deleted := st.created }

/-! ## Orchestrator: first `index.js` revision (`printJob`, lines 279-460)

Classifies each file with `getFileType`; downloads and converts
word/excel/csv/text in memory; the load race *resolves* on timeout; the
PDF.js render wait is wrapped in `try { ... } catch (e) { console.log(...) }`
so its failure is swallowed; printer resolution happens before the loop. -/

def p1_file (env : Env) (j : Job) (u : String) (i : Nat) (st : St) :
    Except PrintError Unit × St :=
  match getFileType j u i with
  | .pdf =>
    printStep env (renderWaitSwallow env (loadStep1 st)) 1
  | .word =>
    match dlStep env false st with
    | (.error e, st) => (.error e, st)
    | (.ok _, st) =>
      match convStep env false st with
      | (.error e, st) => (.error e, st)
      | (.ok _, st) => printStep env (loadStep1 st) 1
  | .excel =>
    match dlStep env false st with
    | (.error e, st) => (.error e, st)
    | (.ok _, st) =>
      match convStep env false st with
      | (.error e, st) => (.error e, st)
      | (.ok _, st) => printStep env (loadStep1 st) 1
  | .csv =>
    match dlStep env false st with
    | (.error e, st) => (.error e, st)
    | (.ok _, st) => printStep env (loadStep1 st) 1
  | .text =>
    match dlStep env false st with
    | (.error e, st) => (.error e, st)
    | (.ok _, st) => printStep env (loadStep1 st) 1
  | .image =>
    printStep env (loadStep1 st) 1

def p1_files (env : Env) (j : Job) : List String → Nat → St → Except PrintError Unit × St
  | [], _, st => (.ok (), st)
  | u :: rest, i, st =>
    match p1_file env j u i st with
    | (.error e, st) => (.error e, st)
    | (.ok _, st) => p1_files env j rest (i + 1) st

def p1_qty (env : Env) (j : Job) : Nat → St → Except PrintError Unit × St
  | 0, st => (.ok (), st)
  | n + 1, st =>
    match p1_files env j j.images_urls 0 st with
    | (.error e, st) => (.error e, st)
    | (.ok _, st) => p1_qty env j n st

/-- The first `index.js` revision of `printJob`: validate, resolve the
printer, then print `urls` in order, `qty` times. -/
def printJob1 (env : Env) (j : Job) : Except PrintError Unit × St :=
  if j.images_urls.isEmpty then (.error .badInput, st0)
  else
    match resolvePrinter (jobDevice j) env.printers with
    | .error e => (.error e, st0)
    | .ok _ => p1_qty env j (effQtyNat j.quantity) st0

/-! ## Orchestrator: `part_002` (`printImages`, lines 190-447)

All-image jobs take a fast path: one HTML with every image, one submission
with `copies = qty`.  Mixed jobs rasterize each PDF to temp PNGs
(`pdfToImages`) and print page by page; the target device is resolved
*lazily*, on the first printable unit, after the page has been loaded (and,
for a PDF, after rasterization).  Temp PNGs are unlinked only after the
loop completes; every thrown error propagates without reaching the
cleanup. -/

/-- `urls.every((u, i) => !isPdf(job, u, i))`. -/
def allImagesFrom (j : Job) : List String → Nat → Bool
  | [], _ => true
  | u :: rest, i => !isPdf j u i && allImagesFrom j rest (i + 1)

/-- Print one image page on the `part_002` mixed path: load (race rejects on
timeout), resolve the device if not yet resolved, wait for images, settle,
submit with `copies: 1`.  Returns the (now resolved) device. -/
def p2_unit (env : Env) (dev : Option String) (res : Option (Option String)) (st : St) :
    Except PrintError (Option String) × St :=
  match loadStepR env st with
  | (.error e, st) => (.error e, st)
  | (.ok _, st) =>
    match (match res with
           | some d => Except.ok d
           | none => resolvePrinter dev env.printers) with
    | .error e => (.error e, st)
    | .ok d =>
      match printStep env st 1 with
      | (.error e, st) => (.error e, st)
      | (.ok _, st) => (.ok d, st)

/-- `for (const imgUrl of pdfImages) { ... }`: print each rasterized page. -/
def p2_pages (env : Env) (dev : Option String) :
    Nat → Option (Option String) → St → Except PrintError (Option (Option String)) × St
  | 0, res, st => (.ok res, st)
  | n + 1, res, st =>
    match p2_unit env dev res st with
    | (.error e, st) => (.error e, st)
    | (.ok d, st) => p2_pages env dev n (some d) st

def p2_file (env : Env) (j : Job) (dev : Option String) (u : String) (i : Nat)
    (res : Option (Option String)) (st : St) :
    Except PrintError (Option (Option String)) × St :=
  if isPdf j u i then
    match rasterStep env st with
    | (.error e, st) => (.error e, st)
    | (.ok n, st) => p2_pages env dev n res st
  else
    match p2_unit env dev res st with
    | (.error e, st) => (.error e, st)
    | (.ok d, st) => (.ok (some d), st)

def p2_files (env : Env) (j : Job) (dev : Option String) :
    List String → Nat → Option (Option String) → St →
    Except PrintError (Option (Option String)) × St
  | [], _, res, st => (.ok res, st)
  | u :: rest, i, res, st =>
    match p2_file env j dev u i res st with
    | (.error e, st) => (.error e, st)
    | (.ok res, st) => p2_files env j dev rest (i + 1) res st

def p2_qty (env : Env) (j : Job) (dev : Option String) :
    Nat → Option (Option String) → St → Except PrintError (Option (Option String)) × St
  | 0, res, st => (.ok res, st)
  | n + 1, res, st =>
    match p2_files env j dev j.images_urls 0 res st with
    | (.error e, st) => (.error e, st)
    | (.ok res, st) => p2_qty env j dev n res st

/-- The all-image fast path of `part_002` (lines 247-305): one HTML holding
every image, load, resolve the device, one submission with `copies = qty`. -/
def p2_allPath (env : Env) (j : Job) : Except PrintError Unit × St :=
  match loadStepR env st0 with
  | (.error e, st) => (.error e, st)
  | (.ok _, st) =>
    match resolvePrinter (jobDevice j) env.printers with
    | .error e => (.error e, st)
    | .ok _ =>
      match printStep env st (effQtyNat j.quantity) with
      | (.error e, st) => (.error e, st)
      | (.ok _, st) => (.ok (), st)

/-- `printImages(job)` from `part_002`. -/
def printImages2 (env : Env) (j : Job) : Except PrintError Unit × St :=
  if j.images_urls.isEmpty then (.error .badInput, st0)
  else if allImagesFrom j j.images_urls 0 then p2_allPath env j
  else
    match p2_qty env j (jobDevice j) (effQtyNat j.quantity) none st0 with
    | (.error e, st) => (.error e, st)
    | (.ok _, st) => (.ok (), cleanupAll st)

/-! ## Orchestrator: `part_004` (`printJob`, lines 524-920)

Documents (per `isDocument`) are downloaded into a per-job temp directory,
converted to PDF by LibreOffice, and then treated as PDFs; the LibreOffice
capability check happens before any work; `quantity` is deliberately ignored
("Files are already expanded by quantity, so each file should be printed
once").  The temp directory is removed recursively on both the success and
the error path. -/

/-- Printing one PDF unit via PDF.js in the print window: load (race rejects
after 30s), render wait (rejection propagates), settle, submit one copy.
Shared by `part_004` (lines 726-811) and `part_006`'s `printPdf`
(lines 351-393). -/
def pdfPrintPath (env : Env) (st : St) : Except PrintError Unit × St :=
  match loadStepR env st with
  | (.error e, st) => (.error e, st)
  | (.ok _, st) =>
    match renderWaitStep env st with
    | (.error e, st) => (.error e, st)
    | (.ok _, st) => printStep env st 1

/-- Printing one image unit: load (race rejects after 15s), wait for the
images (always resolves), settle, submit one copy.  Shared by `part_004`
(lines 823-892) and `part_006`'s `printImage` (lines 396-434). -/
def imagePrintPath (env : Env) (st : St) : Except PrintError Unit × St :=
  match loadStepR env st with
  | (.error e, st) => (.error e, st)
  | (.ok _, st) => printStep env st 1

/-- `images_urls.some((url, i) => isDocument(job, url, i))`. -/
def hasDocsFrom (j : Job) : List String → Nat → Bool
  | [], _ => false
  | u :: rest, i => isDocument j u i || hasDocsFrom j rest (i + 1)

def p4_file (env : Env) (j : Job) (u : String) (i : Nat) (st : St) :
    Except PrintError Unit × St :=
  if isDocument j u i then
    match dlStep env true st with
    | (.error e, st) => (.error e, st)
    | (.ok _, st) =>
      match convStep env true st with
      | (.error e, st) => (.error e, st)
      | (.ok _, st) => pdfPrintPath env st
  else if isPdf j u i then pdfPrintPath env st
  else imagePrintPath env st

def p4_files (env : Env) (j : Job) : List String → Nat → St → Except PrintError Unit × St
  | [], _, st => (.ok (), st)
  | u :: rest, i, st =>
    match p4_file env j u i st with
    | (.error e, st) => (.error e, st)
    | (.ok _, st) => p4_files env j rest (i + 1) st

/-- The trace after `part_004` creates its per-job temp directory (one temp
artifact, `fs.mkdirSync(tempDir)`), before any other work. -/
def st0dir : St := ⟨0, 0, 0, 0, 0, 0, 1, 0, [], false⟩

/-- `printJob(job, sendProgress)` from `part_004`: validate, LibreOffice
capability check, create the per-job temp directory (one temp artifact),
resolve the printer, print each file exactly once, and remove the temp
directory on every exit from the try block. -/
def printJob4 (env : Env) (j : Job) : Except PrintError Unit × St :=
  if j.images_urls.isEmpty then (.error .badInput, st0)
  else if hasDocsFrom j j.images_urls 0 && !env.libreInstalled then
    (.error .libreRequired, st0)
  else
    match resolvePrinter (jobDevice j) env.printers with
    | .error e => (.error e, cleanupAll st0dir)
    | .ok _ =>
      match p4_files env j j.images_urls 0 st0dir with
      | (.error e, st) => (.error e, cleanupAll st)
      | (.ok _, st) => (.ok (), cleanupAll st)

/-! ## Orchestrator: `part_006` (`printJob`, lines 301-503)

Word/excel/csv/text files are downloaded to a temp path and converted to a
temp PDF with LibreOffice; PDFs print via PDF.js; the printer is resolved
before the loop; the tracked temp files are unlinked in a `finally`, on
success and error alike. -/

/-- `needsConversion(fileType)` from `part_006` lines 183-185. -/
def needsConversion (ft : FileKind) : Bool :=
  ft == .word || ft == .excel || ft == .csv || ft == .text

def p6_file (env : Env) (j : Job) (u : String) (i : Nat) (st : St) :
    Except PrintError Unit × St :=
  if needsConversion (getFileType6 j u i) then
    match dlStep env true st with
    | (.error e, st) => (.error e, st)
    | (.ok _, st) =>
      match convStep env true st with
      | (.error e, st) => (.error e, st)
      | (.ok _, st) => pdfPrintPath env st
  else if getFileType6 j u i == .pdf then pdfPrintPath env st
  else imagePrintPath env st

def p6_files (env : Env) (j : Job) : List String → Nat → St → Except PrintError Unit × St
  | [], _, st => (.ok (), st)
  | u :: rest, i, st =>
    match p6_file env j u i st with
    | (.error e, st) => (.error e, st)
    | (.ok _, st) => p6_files env j rest (i + 1) st

def p6_qty (env : Env) (j : Job) : Nat → St → Except PrintError Unit × St
  | 0, st => (.ok (), st)
  | n + 1, st =>
    match p6_files env j j.images_urls 0 st with
    | (.error e, st) => (.error e, st)
    | (.ok _, st) => p6_qty env j n st

/-- `printJob(job)` from `part_006`, with its `finally` temp cleanup. -/
def printJob6 (env : Env) (j : Job) : Except PrintError Unit × St :=
  if j.images_urls.isEmpty then (.error .badInput, st0)
  else
    match resolvePrinter (jobDevice j) env.printers with
    | .error e => (.error e, cleanupAll st0)
    | .ok _ =>
      match p6_qty env j (effQtyNat j.quantity) st0 with
      | (.error e, st) => (.error e, cleanupAll st)
      | (.ok _, st) => (.ok (), cleanupAll st)

/-! ## Orchestrator: second `index.js` revision (`printJob`, lines 670-840)

Handles only PDFs (per `isPdf`, rendered in-window via PDF.js) and images.
The printer is resolved eagerly, before the loop; the quantity loop is
kept; the load races reject on timeout (30s for PDFs, 15s for images) and
the PDF.js render wait's rejection propagates, aborting the job.  No temp
files are created.  Per printable unit this is exactly `pdfPrintPath` /
`imagePrintPath`. -/

def p2i_file (env : Env) (j : Job) (u : String) (i : Nat) (st : St) :
    Except PrintError Unit × St :=
  if isPdf j u i then pdfPrintPath env st else imagePrintPath env st

def p2i_files (env : Env) (j : Job) : List String → Nat → St → Except PrintError Unit × St
  | [], _, st => (.ok (), st)
  | u :: rest, i, st =>
    match p2i_file env j u i st with
    | (.error e, st) => (.error e, st)
    | (.ok _, st) => p2i_files env j rest (i + 1) st

def p2i_qty (env : Env) (j : Job) : Nat → St → Except PrintError Unit × St
  | 0, st => (.ok (), st)
  | n + 1, st =>
    match p2i_files env j j.images_urls 0 st with
    | (.error e, st) => (.error e, st)
    | (.ok _, st) => p2i_qty env j n st

/-- The second `index.js` revision of `printJob`: validate, resolve the
printer, then print `urls` in order, `qty` times, PDFs via PDF.js and
images directly. -/
def printJob2 (env : Env) (j : Job) : Except PrintError Unit × St :=
  if j.images_urls.isEmpty then (.error .badInput, st0)
  else
    match resolvePrinter (jobDevice j) env.printers with
    | .error e => (.error e, st0)
    | .ok _ => p2i_qty env j (effQtyNat j.quantity) st0

/-! ## First-error abort, as a trace predicate

`OkSeg env s t` says that every fallible oracle index consulted between
trace `s` and trace `t` reported success.  Since the orchestrators advance
each counter exactly once per consultation, `OkSeg env st0 final` for a
run that returned `ok` states that the run encountered no failure at all —
equivalently (contrapositive), the first failing step of any kind aborts
the job: no failed step is retried or skipped with the remaining work
still processed. -/
def OkSeg (env : Env) (s t : St) : Prop :=
  (∀ k, s.loads ≤ k → k < t.loads → env.loadOk k = true) ∧
  (∀ k, s.rendersC ≤ k → k < t.rendersC → env.renders k = RenderRes.ok) ∧
  (∀ k, s.printsC ≤ k → k < t.printsC → env.printOk k = true) ∧
  (∀ k, s.dlC ≤ k → k < t.dlC → env.dl k = true) ∧
  (∀ k, s.convC ≤ k → k < t.convC → env.convOk k = true) ∧
  (∀ k, s.rastersC ≤ k → k < t.rastersC → env.raster k ≠ none)

/-! ## Source-file downloaders

Two downloader families coexist.  `part_004`'s `downloadFile` (lines
72-114) uses `https.get`, follows 301/302/307/308 redirects recursively
and rejects every other non-200 status.  The `net.request` downloaders in
`index.js` (lines 84-98) and `part_006` (lines 83-104) buffer the response
body and resolve it on `end` without ever inspecting the status code. -/

/-- An HTTP exchange as seen by a downloader: a response with a status and a
`Location` header value, or a network-level error. -/
inductive HttpResp
  | resp (status : Nat) (location : String)
  | netError
  deriving Repr, DecidableEq

/-- `statusCode === 301 || 302 || 307 || 308` (`part_004` line 79). -/
def isRedirectStatus (s : Nat) : Bool :=
  s == 301 || s == 302 || s == 307 || s == 308

inductive DlOutcome
  | ok
  | statusErr (code : Nat)
  | netErr
  | fuelOut
  deriving Repr, DecidableEq

/-- `downloadFile(url, destPath)` from `part_004`: follow redirects (with a
fuel bound standing for the finite call stack), reject any other non-200
status with `Download failed with status: <code>`, resolve on 200. -/
def downloadFile4 (world : String → HttpResp) : Nat → String → DlOutcome
  | 0, _ => .fuelOut
  | fuel + 1, url =>
    match world url with
    | .netError => .netErr
    | .resp status loc =>
      if isRedirectStatus status then downloadFile4 world fuel loc
      else if status ≠ 200 then .statusErr status
      else .ok

/-- `downloadFile(url)` from `index.js` / `downloadFile(url, destPath)` from
`part_006`: `net.request`, which resolves the buffered body on `end` for
*any* response status; only a request/response error event rejects. -/
def downloadFileNet (world : String → HttpResp) (url : String) : DlOutcome :=
  match world url with
  | .netError => .netErr
  | .resp _ _ => .ok

/-! ## Concrete sample data

Concrete printers, environments, jobs and HTTP worlds used to evaluate the
models on specific inputs (counterexamples and witnesses). -/

def samplePrinter : Printer := ⟨"HP LaserJet", true⟩

/-- An environment where everything succeeds: one default printer, a
rasterizer yielding 2-page PDFs, all loads/renders/prints/downloads ok. -/
def benignEnv : Env :=
  { printers := [samplePrinter], libreInstalled := true,
    loadOk := fun _ => true, renders := fun _ => .ok, printOk := fun _ => true,
    dl := fun _ => true, convOk := fun _ => true, raster := fun _ => some 2 }

/-- Benign, except every PDF.js render wait exceeds its attempt budget. -/
def envRenderTimeout : Env := { benignEnv with renders := fun _ => .timeout }

/-- Benign, except the live printer list is empty. -/
def envNoPrinters : Env := { benignEnv with printers := [] }

/-- A quantity-3 job with the single image URL `u` and no hints. -/
def mkJob3 (u : String) : Job := ⟨[u], some 3, none, none, none, none⟩

def jobQ3 : Job := mkJob3 "https://x/a.png"

/-- A plain single-PDF job. -/
def jobOnePdf : Job := ⟨["https://x/doc.pdf"], none, none, none, none, none⟩

/-- A mixed PDF + image job. -/
def jobPdfImage : Job := ⟨["https://x/a.pdf", "https://x/b.png"], none, none, none, none, none⟩

/-- A plain single-image job with no hints. -/
def jobOneImage : Job := ⟨["https://x/a.png"], none, none, none, none, none⟩

/-- A single-image job requesting the absent device "Canon". -/
def jobDevCanon : Job := ⟨["https://x/a.png"], none, none, some "Canon", none, none⟩

/-- A PDF-by-extension URL with the contradicting hint "zzz" (a non-empty
hint matching no category token and not containing "pdf"). -/
def jobHintZzz : Job := ⟨["https://x/file.pdf"], none, none, none, none, some ["zzz"]⟩

/-- An HTTP world in which every URL answers 404. -/
def w404 : String → HttpResp := fun _ => .resp 404 ""

/-- An HTTP world with one 302 redirect hop and a 200 target. -/
def wRedirect : String → HttpResp := fun u =>
  if u == "https://x/r" then .resp 302 "https://x/f" else .resp 200 ""

/-! ## Helper lemmas -/

/-- Split a false boolean disjunction. -/
theorem bor_false_split {a b : Bool} (h : (a || b) = false) :
    a = false ∧ b = false := by
  cases a <;> cases b <;> simp_all

/-- The effective copy count is always at least one. -/
theorem effQtyNat_pos (q : Option Int) : ∃ m, effQtyNat q = m + 1 := by
  have h1 : 1 ≤ effectiveQty q := le_max_left _ _
  refine ⟨effQtyNat q - 1, ?_⟩
  unfold effQtyNat
  omega

/-- With an empty printer list, the first `index.js` orchestrator fails with
"No printers found." before doing anything. -/
theorem printJob1_emptyPrinters (env : Env) (j : Job) (u : String) (us : List String)
    (hu : j.images_urls = u :: us) (hp : env.printers = []) :
    printJob1 env j = (.error .noPrinters, st0) := by
  unfold printJob1
  rw [hu, hp]
  simp [resolvePrinter]

/-- With an empty printer list, `part_004`'s orchestrator fails with
"No printers found." having created (and removed) only the temp dir. -/
theorem printJob4_emptyPrinters (env : Env) (j : Job) (u : String) (us : List String)
    (hu : j.images_urls = u :: us) (hp : env.printers = [])
    (hlib : env.libreInstalled = true) :
    printJob4 env j = (.error .noPrinters, cleanupAll st0dir) := by
  unfold printJob4
  rw [hu, hp]
  simp [resolvePrinter, hlib]

/-- With an empty printer list, `part_006`'s orchestrator fails with
"No printers found." before doing anything. -/
theorem printJob6_emptyPrinters (env : Env) (j : Job) (u : String) (us : List String)
    (hu : j.images_urls = u :: us) (hp : env.printers = []) :
    printJob6 env j = (.error .noPrinters, cleanupAll st0) := by
  unfold printJob6
  rw [hu, hp]
  simp [resolvePrinter]

/-- A requested device absent from a non-empty list makes the first
`index.js` orchestrator fail with the printer-not-found error naming it,
before any work. -/
theorem printJob1_notFound (env : Env) (j : Job) (dn : String) (p : Printer)
    (ps : List Printer) (u : String) (us : List String)
    (hu : j.images_urls = u :: us)
    (hdev : jobDevice j = some dn)
    (hprn : env.printers = p :: ps)
    (hfound : ((p :: ps).any (fun q => q.name == dn)) = false) :
    printJob1 env j = (.error (.printerNotFound dn), st0) := by
  have hres : resolvePrinter (jobDevice j) env.printers = .error (.printerNotFound dn) := by
    rw [hdev, hprn]
    simp [resolvePrinter, hfound]
  unfold printJob1
  rw [hu]
  simp [hres]

/-- The corresponding fact for `part_004`'s orchestrator. -/
theorem printJob4_notFound (env : Env) (j : Job) (dn : String) (p : Printer)
    (ps : List Printer) (u : String) (us : List String)
    (hu : j.images_urls = u :: us)
    (hdev : jobDevice j = some dn)
    (hprn : env.printers = p :: ps)
    (hfound : ((p :: ps).any (fun q => q.name == dn)) = false)
    (hlib : env.libreInstalled = true) :
    printJob4 env j = (.error (.printerNotFound dn), cleanupAll st0dir) := by
  have hres : resolvePrinter (jobDevice j) env.printers = .error (.printerNotFound dn) := by
    rw [hdev, hprn]
    simp [resolvePrinter, hfound]
  unfold printJob4
  rw [hu]
  simp [hres, hlib]

/-- The corresponding fact for `part_006`'s orchestrator. -/
theorem printJob6_notFound (env : Env) (j : Job) (dn : String) (p : Printer)
    (ps : List Printer) (u : String) (us : List String)
    (hu : j.images_urls = u :: us)
    (hdev : jobDevice j = some dn)
    (hprn : env.printers = p :: ps)
    (hfound : ((p :: ps).any (fun q => q.name == dn)) = false) :
    printJob6 env j = (.error (.printerNotFound dn), cleanupAll st0) := by
  have hres : resolvePrinter (jobDevice j) env.printers = .error (.printerNotFound dn) := by
    rw [hdev, hprn]
    simp [resolvePrinter, hfound]
  unfold printJob6
  rw [hu]
  simp [hres]

/-- `part_002`'s `printImages` also ends in the printer-not-found error with
zero submissions, on both the all-image path and the mixed path (the latter
resolves lazily, but still before the first print), provided nothing fails
earlier (loads succeed, rasterization yields at least one page). -/
theorem printImages2_notFound (env : Env) (j : Job) (dn : String) (p : Printer)
    (ps : List Printer) (u : String) (us : List String) (r : Nat)
    (hu : j.images_urls = u :: us)
    (hdev : jobDevice j = some dn)
    (hprn : env.printers = p :: ps)
    (hfound : ((p :: ps).any (fun q => q.name == dn)) = false)
    (hload : env.loadOk = fun _ => true)
    (hrast : env.raster = fun _ => some (r + 1)) :
    (printImages2 env j).1 = .error (.printerNotFound dn) ∧
      (printImages2 env j).2.subs = [] := by
  have hres : resolvePrinter (jobDevice j) env.printers = .error (.printerNotFound dn) := by
    rw [hdev, hprn]
    simp [resolvePrinter, hfound]
  unfold printImages2
  rw [hu]
  cases hall : allImagesFrom j (u :: us) 0
  case false =>
    obtain ⟨m, hm⟩ := effQtyNat_pos j.quantity
    simp only [List.isEmpty_cons, hm, hall]
    simp only [p2_qty, hu, p2_files, p2_file]
    cases hpdf : isPdf j u 0
    case false =>
      simp [p2_unit, loadStepR, hload, hres, st0]
    case true =>
      simp [rasterStep, hrast, p2_pages, p2_unit, loadStepR, hload, hres, st0]
  case true =>
    simp only [List.isEmpty_cons, hall]
    simp [p2_allPath, loadStepR, hload, hres, st0]

/-- The all-image fast path of `part_002` never creates temp artifacts. -/
theorem p2_allPath_noTemps (env : Env) (j : Job) :
    ((p2_allPath env j).2).created = 0 ∧ ((p2_allPath env j).2).deleted = 0 := by
  unfold p2_allPath
  split
  next e st heq =>
    have h2 := congrArg Prod.snd heq
    simp only [] at h2
    subst h2
    exact ⟨rfl, rfl⟩
  next a st heq =>
    have h2 := congrArg Prod.snd heq
    simp only [] at h2
    subst h2
    split
    next e heq2 => exact ⟨rfl, rfl⟩
    next d heq2 =>
      split
      next e st2 heq3 =>
        have h3 := congrArg Prod.snd heq3
        simp only [] at h3
        subst h3
        exact ⟨rfl, rfl⟩
      next a2 st2 heq3 =>
        have h3 := congrArg Prod.snd heq3
        simp only [] at h3
        subst h3
        exact ⟨rfl, rfl⟩

/-- `part_004` removes its temp directory (and with it every temp artifact)
on every exit path: the run always ends with `deleted = created`. -/
theorem printJob4_cleanup (env : Env) (j : Job) :
    ((printJob4 env j).2).deleted = ((printJob4 env j).2).created := by
  unfold printJob4
  split
  · rfl
  · split
    · rfl
    · cases hr : resolvePrinter (jobDevice j) env.printers with
      | error e => rfl
      | ok d =>
        rcases hf : p4_files env j j.images_urls 0 st0dir with ⟨r, st⟩
        cases r <;> rfl

/-- `part_006` unlinks its tracked temp files in a `finally`: the run always
ends with `deleted = created`. -/
theorem printJob6_cleanup (env : Env) (j : Job) :
    ((printJob6 env j).2).deleted = ((printJob6 env j).2).created := by
  unfold printJob6
  split
  · rfl
  · cases hr : resolvePrinter (jobDevice j) env.printers with
    | error e => rfl
    | ok d =>
      rcases hf : p6_qty env j (effQtyNat j.quantity) st0 with ⟨r, st⟩
      cases r <;> rfl

/-- `part_002` cleans its temp page images when (and, on the mixed path,
only when) the job completes successfully. -/
theorem printImages2_ok_cleanup (env : Env) (j : Job) :
    (printImages2 env j).1 = .ok () →
    ((printImages2 env j).2).deleted = ((printImages2 env j).2).created := by
  unfold printImages2
  split
  · intro h; exact absurd h (by simp)
  · split
    · intro _
      rw [(p2_allPath_noTemps env j).1, (p2_allPath_noTemps env j).2]
    · rcases hq : p2_qty env j (jobDevice j) (effQtyNat j.quantity) none st0 with ⟨r, st⟩
      cases r with
      | error e => intro h; simp at h
      | ok _ => intro _; rfl

/-- A first-file PDF render timeout aborts `part_006`'s orchestrator with
the `PDF render timeout` error and no submission. -/
theorem printJob6_renderTimeout (env : Env) (j : Job) (u : String) (us : List String)
    (d : Option String)
    (hu : j.images_urls = u :: us)
    (hft6 : getFileType6 j u 0 = .pdf)
    (hres : resolvePrinter (jobDevice j) env.printers = .ok d)
    (hload : env.loadOk = fun _ => true)
    (hrt : env.renders = fun _ => RenderRes.timeout) :
    (printJob6 env j).1 = .error .renderTimeout ∧ (printJob6 env j).2.subs = [] := by
  unfold printJob6
  obtain ⟨m, hm⟩ := effQtyNat_pos j.quantity
  rw [hu]
  simp only [List.isEmpty_cons, hres, hm]
  simp only [p6_qty, hu, p6_files, p6_file, hft6]
  simp [needsConversion, pdfPrintPath, loadStepR, hload, renderWaitStep, hrt, st0, cleanupAll]

/-- A first-file PDF render timeout aborts `part_004`'s orchestrator with
the `PDF render timeout` error and no submission. -/
theorem printJob4_renderTimeout (env : Env) (j : Job) (u : String) (us : List String)
    (d : Option String)
    (hu : j.images_urls = u :: us)
    (hdoc : isDocument j u 0 = false)
    (hpdf : isPdf j u 0 = true)
    (hlib : env.libreInstalled = true)
    (hres : resolvePrinter (jobDevice j) env.printers = .ok d)
    (hload : env.loadOk = fun _ => true)
    (hrt : env.renders = fun _ => RenderRes.timeout) :
    (printJob4 env j).1 = .error .renderTimeout ∧ (printJob4 env j).2.subs = [] := by
  unfold printJob4
  rw [hu]
  simp only [List.isEmpty_cons, hlib, hres]
  simp only [p4_files, hu, p4_file, hdoc, hpdf]
  simp [pdfPrintPath, loadStepR, hload, renderWaitStep, hrt, st0dir, cleanupAll]

/-! ### First-error abort machinery

Per-step and per-loop lemmas showing that in `part_002`'s `printImages`,
the second `index.js` revision, `part_004` and `part_006`, a run that
returns `ok` consulted no failing oracle: every fallible step it performed
succeeded.  Contrapositively, the first failing step of any kind (page
load, download, conversion, rasterization, render wait, print submission)
aborts the whole job. -/
theorem okSeg_refl (env : Env) (s : St) : OkSeg env s s := by
  refine ⟨?_, ?_, ?_, ?_, ?_, ?_⟩ <;> intro k h1 h2 <;> exact absurd h2 (by omega)

theorem okSeg_trans {env : Env} {s t u : St} (h1 : OkSeg env s t) (h2 : OkSeg env t u) :
    OkSeg env s u := by
  obtain ⟨a1, b1, c1, d1, e1, f1⟩ := h1
  obtain ⟨a2, b2, c2, d2, e2, f2⟩ := h2
  refine ⟨?_, ?_, ?_, ?_, ?_, ?_⟩ <;> intro k hk1 hk2
  · by_cases h : k < t.loads
    · exact a1 k hk1 h
    · exact a2 k (by omega) hk2
  · by_cases h : k < t.rendersC
    · exact b1 k hk1 h
    · exact b2 k (by omega) hk2
  · by_cases h : k < t.printsC
    · exact c1 k hk1 h
    · exact c2 k (by omega) hk2
  · by_cases h : k < t.dlC
    · exact d1 k hk1 h
    · exact d2 k (by omega) hk2
  · by_cases h : k < t.convC
    · exact e1 k hk1 h
    · exact e2 k (by omega) hk2
  · by_cases h : k < t.rastersC
    · exact f1 k hk1 h
    · exact f2 k (by omega) hk2

theorem okSeg_cleanup {env : Env} {s t : St} (h : OkSeg env s t) :
    OkSeg env s (cleanupAll t) := by
  obtain ⟨a, b, c, d, e, f⟩ := h
  exact ⟨a, b, c, d, e, f⟩

theorem loadStepR_okSeg {env : Env} {st st' : St} {a : Unit}
    (heq : loadStepR env st = (Except.ok a, st')) : OkSeg env st st' := by
  have hfst := congrArg Prod.fst heq
  have hsnd := congrArg Prod.snd heq
  simp only [] at hsnd
  have hb : env.loadOk st.loads = true := by
    cases hc : env.loadOk st.loads
    · exfalso
      unfold loadStepR at hfst
      rw [hc] at hfst
      simp at hfst
    · rfl
  have e1 : st'.loads = st.loads + 1 := by rw [← hsnd]; rfl
  have e2 : st'.rendersC = st.rendersC := by rw [← hsnd]; rfl
  have e3 : st'.printsC = st.printsC := by rw [← hsnd]; rfl
  have e4 : st'.dlC = st.dlC := by rw [← hsnd]; rfl
  have e5 : st'.convC = st.convC := by rw [← hsnd]; rfl
  have e6 : st'.rastersC = st.rastersC := by rw [← hsnd]; rfl
  refine ⟨?_, ?_, ?_, ?_, ?_, ?_⟩ <;> intro k hk1 hk2
  · rw [e1] at hk2
    have hk : k = st.loads := by omega
    rw [hk]; exact hb
  · rw [e2] at hk2; exact absurd hk2 (by omega)
  · rw [e3] at hk2; exact absurd hk2 (by omega)
  · rw [e4] at hk2; exact absurd hk2 (by omega)
  · rw [e5] at hk2; exact absurd hk2 (by omega)
  · rw [e6] at hk2; exact absurd hk2 (by omega)

theorem renderWaitStep_okSeg {env : Env} {st st' : St} {a : Unit}
    (heq : renderWaitStep env st = (Except.ok a, st')) : OkSeg env st st' := by
  have hfst := congrArg Prod.fst heq
  have hsnd := congrArg Prod.snd heq
  simp only [] at hsnd
  have hb : env.renders st.rendersC = RenderRes.ok := by
    cases hc : env.renders st.rendersC
    · rfl
    · exfalso
      unfold renderWaitStep at hfst
      rw [hc] at hfst
      simp at hfst
    · exfalso
      unfold renderWaitStep at hfst
      rw [hc] at hfst
      simp at hfst
  have e1 : st'.loads = st.loads := by rw [← hsnd]; rfl
  have e2 : st'.rendersC = st.rendersC + 1 := by rw [← hsnd]; rfl
  have e3 : st'.printsC = st.printsC := by rw [← hsnd]; rfl
  have e4 : st'.dlC = st.dlC := by rw [← hsnd]; rfl
  have e5 : st'.convC = st.convC := by rw [← hsnd]; rfl
  have e6 : st'.rastersC = st.rastersC := by rw [← hsnd]; rfl
  refine ⟨?_, ?_, ?_, ?_, ?_, ?_⟩ <;> intro k hk1 hk2
  · rw [e1] at hk2; exact absurd hk2 (by omega)
  · rw [e2] at hk2
    have hk : k = st.rendersC := by omega
    rw [hk]; exact hb
  · rw [e3] at hk2; exact absurd hk2 (by omega)
  · rw [e4] at hk2; exact absurd hk2 (by omega)
  · rw [e5] at hk2; exact absurd hk2 (by omega)
  · rw [e6] at hk2; exact absurd hk2 (by omega)

theorem printStep_okSeg {env : Env} {st st' : St} {c : Nat} {a : Unit}
    (heq : printStep env st c = (Except.ok a, st')) : OkSeg env st st' := by
  have hfst := congrArg Prod.fst heq
  have hsnd := congrArg Prod.snd heq
  simp only [] at hsnd
  have hb : env.printOk st.printsC = true := by
    cases hc : env.printOk st.printsC
    · exfalso
      unfold printStep at hfst
      rw [hc] at hfst
      simp at hfst
    · rfl
  have e1 : st'.loads = st.loads := by rw [← hsnd]; rfl
  have e2 : st'.rendersC = st.rendersC := by rw [← hsnd]; rfl
  have e3 : st'.printsC = st.printsC + 1 := by rw [← hsnd]; rfl
  have e4 : st'.dlC = st.dlC := by rw [← hsnd]; rfl
  have e5 : st'.convC = st.convC := by rw [← hsnd]; rfl
  have e6 : st'.rastersC = st.rastersC := by rw [← hsnd]; rfl
  refine ⟨?_, ?_, ?_, ?_, ?_, ?_⟩ <;> intro k hk1 hk2
  · rw [e1] at hk2; exact absurd hk2 (by omega)
  · rw [e2] at hk2; exact absurd hk2 (by omega)
  · rw [e3] at hk2
    have hk : k = st.printsC := by omega
    rw [hk]; exact hb
  · rw [e4] at hk2; exact absurd hk2 (by omega)
  · rw [e5] at hk2; exact absurd hk2 (by omega)
  · rw [e6] at hk2; exact absurd hk2 (by omega)

theorem dlStep_okSeg {env : Env} {mk : Bool} {st st' : St} {a : Unit}
    (heq : dlStep env mk st = (Except.ok a, st')) : OkSeg env st st' := by
  have hfst := congrArg Prod.fst heq
  have hsnd := congrArg Prod.snd heq
  simp only [] at hsnd
  have hb : env.dl st.dlC = true := by
    cases hc : env.dl st.dlC
    · exfalso
      unfold dlStep at hfst
      rw [hc] at hfst
      simp at hfst
    · rfl
  have e1 : st'.loads = st.loads := by rw [← hsnd]; rfl
  have e2 : st'.rendersC = st.rendersC := by rw [← hsnd]; rfl
  have e3 : st'.printsC = st.printsC := by rw [← hsnd]; rfl
  have e4 : st'.dlC = st.dlC + 1 := by rw [← hsnd]; rfl
  have e5 : st'.convC = st.convC := by rw [← hsnd]; rfl
  have e6 : st'.rastersC = st.rastersC := by rw [← hsnd]; rfl
  refine ⟨?_, ?_, ?_, ?_, ?_, ?_⟩ <;> intro k hk1 hk2
  · rw [e1] at hk2; exact absurd hk2 (by omega)
  · rw [e2] at hk2; exact absurd hk2 (by omega)
  · rw [e3] at hk2; exact absurd hk2 (by omega)
  · rw [e4] at hk2
    have hk : k = st.dlC := by omega
    rw [hk]; exact hb
  · rw [e5] at hk2; exact absurd hk2 (by omega)
  · rw [e6] at hk2; exact absurd hk2 (by omega)

theorem convStep_okSeg {env : Env} {mk : Bool} {st st' : St} {a : Unit}
    (heq : convStep env mk st = (Except.ok a, st')) : OkSeg env st st' := by
  have hfst := congrArg Prod.fst heq
  have hsnd := congrArg Prod.snd heq
  simp only [] at hsnd
  have hb : env.convOk st.convC = true := by
    cases hc : env.convOk st.convC
    · exfalso
      unfold convStep at hfst
      rw [hc] at hfst
      simp at hfst
    · rfl
  have e1 : st'.loads = st.loads := by rw [← hsnd]; rfl
  have e2 : st'.rendersC = st.rendersC := by rw [← hsnd]; rfl
  have e3 : st'.printsC = st.printsC := by rw [← hsnd]; rfl
  have e4 : st'.dlC = st.dlC := by rw [← hsnd]; rfl
  have e5 : st'.convC = st.convC + 1 := by rw [← hsnd]; rfl
  have e6 : st'.rastersC = st.rastersC := by rw [← hsnd]; rfl
  refine ⟨?_, ?_, ?_, ?_, ?_, ?_⟩ <;> intro k hk1 hk2
  · rw [e1] at hk2; exact absurd hk2 (by omega)
  · rw [e2] at hk2; exact absurd hk2 (by omega)
  · rw [e3] at hk2; exact absurd hk2 (by omega)
  · rw [e4] at hk2; exact absurd hk2 (by omega)
  · rw [e5] at hk2
    have hk : k = st.convC := by omega
    rw [hk]; exact hb
  · rw [e6] at hk2; exact absurd hk2 (by omega)

theorem rasterStep_okSeg {env : Env} {st st' : St} {n : Nat}
    (heq : rasterStep env st = (Except.ok n, st')) : OkSeg env st st' := by
  have hfst := congrArg Prod.fst heq
  have hsnd := congrArg Prod.snd heq
  simp only [] at hsnd
  have hb : env.raster st.rastersC ≠ none := by
    cases hc : env.raster st.rastersC
    · exfalso
      unfold rasterStep at hfst
      rw [hc] at hfst
      simp at hfst
    · simp
  have e1 : st'.loads = st.loads := by rw [← hsnd]; rfl
  have e2 : st'.rendersC = st.rendersC := by rw [← hsnd]; rfl
  have e3 : st'.printsC = st.printsC := by rw [← hsnd]; rfl
  have e4 : st'.dlC = st.dlC := by rw [← hsnd]; rfl
  have e5 : st'.convC = st.convC := by rw [← hsnd]; rfl
  have e6 : st'.rastersC = st.rastersC + 1 := by rw [← hsnd]; rfl
  refine ⟨?_, ?_, ?_, ?_, ?_, ?_⟩ <;> intro k hk1 hk2
  · rw [e1] at hk2; exact absurd hk2 (by omega)
  · rw [e2] at hk2; exact absurd hk2 (by omega)
  · rw [e3] at hk2; exact absurd hk2 (by omega)
  · rw [e4] at hk2; exact absurd hk2 (by omega)
  · rw [e5] at hk2; exact absurd hk2 (by omega)
  · rw [e6] at hk2
    have hk : k = st.rastersC := by omega
    rw [hk]; exact hb

theorem pdfPrintPath_okSeg {env : Env} {st st' : St} {a : Unit}
    (heq : pdfPrintPath env st = (Except.ok a, st')) : OkSeg env st st' := by
  unfold pdfPrintPath at heq
  split at heq
  next e st1 h1 => simp at heq
  next a1 st1 h1 =>
    split at heq
    next e st2 h2 => simp at heq
    next a2 st2 h2 =>
      exact okSeg_trans (loadStepR_okSeg h1)
        (okSeg_trans (renderWaitStep_okSeg h2) (printStep_okSeg heq))

theorem imagePrintPath_okSeg {env : Env} {st st' : St} {a : Unit}
    (heq : imagePrintPath env st = (Except.ok a, st')) : OkSeg env st st' := by
  unfold imagePrintPath at heq
  split at heq
  next e st1 h1 => simp at heq
  next a1 st1 h1 =>
    exact okSeg_trans (loadStepR_okSeg h1) (printStep_okSeg heq)

theorem p2i_file_okSeg {env : Env} {j : Job} {u : String} {i : Nat} {st st' : St} {a : Unit}
    (heq : p2i_file env j u i st = (Except.ok a, st')) : OkSeg env st st' := by
  unfold p2i_file at heq
  split at heq
  · exact pdfPrintPath_okSeg heq
  · exact imagePrintPath_okSeg heq

theorem p2i_files_okSeg {env : Env} {j : Job} (l : List String) :
    ∀ (i : Nat) {st st' : St} {a : Unit},
    p2i_files env j l i st = (Except.ok a, st') → OkSeg env st st' := by
  induction l with
  | nil =>
    intro i st st' a heq
    unfold p2i_files at heq
    injection heq with hA hB
    subst hB
    exact okSeg_refl env st
  | cons u rest ih =>
    intro i st st' a heq
    unfold p2i_files at heq
    split at heq
    next e st1 h1 => simp at heq
    next a1 st1 h1 => exact okSeg_trans (p2i_file_okSeg h1) (ih (i + 1) heq)

theorem p2i_qty_okSeg {env : Env} {j : Job} (n : Nat) :
    ∀ {st st' : St} {a : Unit},
    p2i_qty env j n st = (Except.ok a, st') → OkSeg env st st' := by
  induction n with
  | zero =>
    intro st st' a heq
    unfold p2i_qty at heq
    injection heq with hA hB
    subst hB
    exact okSeg_refl env st
  | succ m ih =>
    intro st st' a heq
    unfold p2i_qty at heq
    split at heq
    next e st1 h1 => simp at heq
    next a1 st1 h1 => exact okSeg_trans (p2i_files_okSeg _ 0 h1) (ih heq)

theorem printJob2_firstErrorAbort (env : Env) (j : Job) :
    (printJob2 env j).1 = .ok () → OkSeg env st0 (printJob2 env j).2 := by
  unfold printJob2
  split
  · intro h; simp at h
  · cases hres : resolvePrinter (jobDevice j) env.printers with
    | error e => intro h; simp at h
    | ok d =>
      rcases hq : p2i_qty env j (effQtyNat j.quantity) st0 with ⟨r, st⟩
      cases r with
      | error e => intro h; simp at h
      | ok a => intro _; exact p2i_qty_okSeg _ hq

theorem p6_file_okSeg {env : Env} {j : Job} {u : String} {i : Nat} {st st' : St} {a : Unit}
    (heq : p6_file env j u i st = (Except.ok a, st')) : OkSeg env st st' := by
  unfold p6_file at heq
  split at heq
  · split at heq
    next e st1 h1 => simp at heq
    next a1 st1 h1 =>
      split at heq
      next e st2 h2 => simp at heq
      next a2 st2 h2 =>
        exact okSeg_trans (dlStep_okSeg h1)
          (okSeg_trans (convStep_okSeg h2) (pdfPrintPath_okSeg heq))
  · split at heq
    · exact pdfPrintPath_okSeg heq
    · exact imagePrintPath_okSeg heq

theorem p6_files_okSeg {env : Env} {j : Job} (l : List String) :
    ∀ (i : Nat) {st st' : St} {a : Unit},
    p6_files env j l i st = (Except.ok a, st') → OkSeg env st st' := by
  induction l with
  | nil =>
    intro i st st' a heq
    unfold p6_files at heq
    injection heq with hA hB
    subst hB
    exact okSeg_refl env st
  | cons u rest ih =>
    intro i st st' a heq
    unfold p6_files at heq
    split at heq
    next e st1 h1 => simp at heq
    next a1 st1 h1 => exact okSeg_trans (p6_file_okSeg h1) (ih (i + 1) heq)

theorem p6_qty_okSeg {env : Env} {j : Job} (n : Nat) :
    ∀ {st st' : St} {a : Unit},
    p6_qty env j n st = (Except.ok a, st') → OkSeg env st st' := by
  induction n with
  | zero =>
    intro st st' a heq
    unfold p6_qty at heq
    injection heq with hA hB
    subst hB
    exact okSeg_refl env st
  | succ m ih =>
    intro st st' a heq
    unfold p6_qty at heq
    split at heq
    next e st1 h1 => simp at heq
    next a1 st1 h1 => exact okSeg_trans (p6_files_okSeg _ 0 h1) (ih heq)

theorem printJob6_firstErrorAbort (env : Env) (j : Job) :
    (printJob6 env j).1 = .ok () → OkSeg env st0 (printJob6 env j).2 := by
  unfold printJob6
  split
  · intro h; simp at h
  · cases hres : resolvePrinter (jobDevice j) env.printers with
    | error e => intro h; simp at h
    | ok d =>
      rcases hq : p6_qty env j (effQtyNat j.quantity) st0 with ⟨r, st⟩
      cases r with
      | error e => intro h; simp at h
      | ok a => intro _; exact okSeg_cleanup (p6_qty_okSeg _ hq)

theorem okSeg_startCounters {env : Env} {s s' t : St}
    (hl : s.loads = s'.loads) (hr : s.rendersC = s'.rendersC)
    (hp : s.printsC = s'.printsC) (hd : s.dlC = s'.dlC)
    (hc : s.convC = s'.convC) (hra : s.rastersC = s'.rastersC)
    (h : OkSeg env s t) : OkSeg env s' t := by
  obtain ⟨a, b, c, d, e, f⟩ := h
  refine ⟨?_, ?_, ?_, ?_, ?_, ?_⟩ <;> intro k hk1 hk2
  · exact a k (by omega) hk2
  · exact b k (by omega) hk2
  · exact c k (by omega) hk2
  · exact d k (by omega) hk2
  · exact e k (by omega) hk2
  · exact f k (by omega) hk2

theorem p4_file_okSeg {env : Env} {j : Job} {u : String} {i : Nat} {st st' : St} {a : Unit}
    (heq : p4_file env j u i st = (Except.ok a, st')) : OkSeg env st st' := by
  unfold p4_file at heq
  split at heq
  · split at heq
    next e st1 h1 => simp at heq
    next a1 st1 h1 =>
      split at heq
      next e st2 h2 => simp at heq
      next a2 st2 h2 =>
        exact okSeg_trans (dlStep_okSeg h1)
          (okSeg_trans (convStep_okSeg h2) (pdfPrintPath_okSeg heq))
  · split at heq
    · exact pdfPrintPath_okSeg heq
    · exact imagePrintPath_okSeg heq

theorem p4_files_okSeg {env : Env} {j : Job} (l : List String) :
    ∀ (i : Nat) {st st' : St} {a : Unit},
    p4_files env j l i st = (Except.ok a, st') → OkSeg env st st' := by
  induction l with
  | nil =>
    intro i st st' a heq
    unfold p4_files at heq
    injection heq with hA hB
    subst hB
    exact okSeg_refl env st
  | cons u rest ih =>
    intro i st st' a heq
    unfold p4_files at heq
    split at heq
    next e st1 h1 => simp at heq
    next a1 st1 h1 => exact okSeg_trans (p4_file_okSeg h1) (ih (i + 1) heq)

theorem printJob4_firstErrorAbort (env : Env) (j : Job) :
    (printJob4 env j).1 = .ok () → OkSeg env st0 (printJob4 env j).2 := by
  unfold printJob4
  split
  · intro h; simp at h
  · split
    · intro h; simp at h
    · cases hres : resolvePrinter (jobDevice j) env.printers with
      | error e => intro h; simp at h
      | ok d =>
        rcases hf : p4_files env j j.images_urls 0 st0dir with ⟨r, st⟩
        cases r with
        | error e => intro h; simp at h
        | ok a =>
          intro _
          have hOK : OkSeg env st0dir st := p4_files_okSeg _ 0 hf
          exact okSeg_cleanup (okSeg_startCounters rfl rfl rfl rfl rfl rfl hOK)

theorem p2_unit_okSeg {env : Env} {dev : Option String} {res : Option (Option String)}
    {st st' : St} {d : Option String}
    (heq : p2_unit env dev res st = (Except.ok d, st')) : OkSeg env st st' := by
  unfold p2_unit at heq
  split at heq
  next e st1 h1 => simp at heq
  next a1 st1 h1 =>
    split at heq
    next e h2 => simp at heq
    next d0 h2 =>
      split at heq
      next e st2 h3 => simp at heq
      next a2 st2 h3 =>
        injection heq with hA hB
        subst hB
        exact okSeg_trans (loadStepR_okSeg h1) (printStep_okSeg h3)

theorem p2_pages_okSeg {env : Env} {dev : Option String} (n : Nat) :
    ∀ {res : Option (Option String)} {st st' : St} {a : Option (Option String)},
    p2_pages env dev n res st = (Except.ok a, st') → OkSeg env st st' := by
  induction n with
  | zero =>
    intro res st st' a heq
    unfold p2_pages at heq
    injection heq with hA hB
    subst hB
    exact okSeg_refl env st
  | succ m ih =>
    intro res st st' a heq
    unfold p2_pages at heq
    split at heq
    next e st1 h1 => simp at heq
    next d st1 h1 => exact okSeg_trans (p2_unit_okSeg h1) (ih heq)

theorem p2_file_okSeg {env : Env} {j : Job} {dev : Option String} {u : String} {i : Nat}
    {res : Option (Option String)} {st st' : St} {a : Option (Option String)}
    (heq : p2_file env j dev u i res st = (Except.ok a, st')) : OkSeg env st st' := by
  unfold p2_file at heq
  split at heq
  · split at heq
    next e st1 h1 => simp at heq
    next n st1 h1 => exact okSeg_trans (rasterStep_okSeg h1) (p2_pages_okSeg n heq)
  · split at heq
    next e st1 h1 => simp at heq
    next d st1 h1 =>
      injection heq with hA hB
      subst hB
      exact p2_unit_okSeg h1

theorem p2_files_okSeg {env : Env} {j : Job} {dev : Option String} (l : List String) :
    ∀ (i : Nat) {res : Option (Option String)} {st st' : St} {a : Option (Option String)},
    p2_files env j dev l i res st = (Except.ok a, st') → OkSeg env st st' := by
  induction l with
  | nil =>
    intro i res st st' a heq
    unfold p2_files at heq
    injection heq with hA hB
    subst hB
    exact okSeg_refl env st
  | cons u rest ih =>
    intro i res st st' a heq
    unfold p2_files at heq
    split at heq
    next e st1 h1 => simp at heq
    next r1 st1 h1 => exact okSeg_trans (p2_file_okSeg h1) (ih (i + 1) heq)

theorem p2_qty_okSeg {env : Env} {j : Job} {dev : Option String} (n : Nat) :
    ∀ {res : Option (Option String)} {st st' : St} {a : Option (Option String)},
    p2_qty env j dev n res st = (Except.ok a, st') → OkSeg env st st' := by
  induction n with
  | zero =>
    intro res st st' a heq
    unfold p2_qty at heq
    injection heq with hA hB
    subst hB
    exact okSeg_refl env st
  | succ m ih =>
    intro res st st' a heq
    unfold p2_qty at heq
    split at heq
    next e st1 h1 => simp at heq
    next r1 st1 h1 => exact okSeg_trans (p2_files_okSeg _ 0 h1) (ih heq)

theorem p2_allPath_okSeg {env : Env} {j : Job} {st' : St} {a : Unit}
    (heq : p2_allPath env j = (Except.ok a, st')) : OkSeg env st0 st' := by
  unfold p2_allPath at heq
  split at heq
  next e st1 h1 => simp at heq
  next a1 st1 h1 =>
    split at heq
    next e h2 => simp at heq
    next d h2 =>
      split at heq
      next e st2 h3 => simp at heq
      next a2 st2 h3 =>
        injection heq with hA hB
        subst hB
        exact okSeg_trans (loadStepR_okSeg h1) (printStep_okSeg h3)

theorem printImages2_firstErrorAbort (env : Env) (j : Job) :
    (printImages2 env j).1 = .ok () → OkSeg env st0 (printImages2 env j).2 := by
  unfold printImages2
  split
  · intro h; simp at h
  · split
    · rcases hA : p2_allPath env j with ⟨r, st⟩
      cases r with
      | error e => intro h; simp at h
      | ok a => intro _; exact p2_allPath_okSeg hA
    · rcases hq : p2_qty env j (jobDevice j) (effQtyNat j.quantity) none st0 with ⟨r, st⟩
      cases r with
      | error e => intro h; simp at h
      | ok a => intro _; exact okSeg_cleanup (p2_qty_okSeg _ hq)

theorem printJob2_renderTimeout (env : Env) (j : Job) (u : String) (us : List String)
    (d : Option String)
    (hu : j.images_urls = u :: us)
    (hpdf : isPdf j u 0 = true)
    (hres : resolvePrinter (jobDevice j) env.printers = .ok d)
    (hload : env.loadOk = fun _ => true)
    (hrt : env.renders = fun _ => RenderRes.timeout) :
    (printJob2 env j).1 = .error .renderTimeout ∧ (printJob2 env j).2.subs = [] := by
  unfold printJob2
  obtain ⟨m, hm⟩ := effQtyNat_pos j.quantity
  rw [hu]
  simp only [List.isEmpty_cons, hres, hm]
  simp only [p2i_qty, hu, p2i_files, p2i_file, hpdf]
  simp [pdfPrintPath, loadStepR, hload, renderWaitStep, hrt, st0]

/-! ## Claim theorems -/

/-- C1 (counterexample): in `part_002`'s `printImages`, a mixed job whose
PDF is rasterized into 2 temp page images and which then fails (here:
empty printer list, detected only lazily) ends with both artifacts still
on disk — temp cleanup is not unconditional. -/
theorem C1_counterexample :
    (printImages2 envNoPrinters jobPdfImage).1 = .error .noPrinters ∧
    (printImages2 envNoPrinters jobPdfImage).2.created = 2 ∧
    (printImages2 envNoPrinters jobPdfImage).2.deleted = 0 := by decide

/-- C1 (amended): temp-artifact cleanup is unconditional in `part_004`
(recursive temp-dir removal on success and error) and `part_006` (`finally`
unlink), but `part_002`'s `printImages` deletes its rasterized page images
only when the job completes successfully: on its error paths the temp PNGs
outlive the job. -/
theorem C1_amended (env : Env) (j : Job) :
    ((printJob4 env j).2).deleted = ((printJob4 env j).2).created ∧
    ((printJob6 env j).2).deleted = ((printJob6 env j).2).created ∧
    ((printImages2 env j).1 = .ok () →
      ((printImages2 env j).2).deleted = ((printImages2 env j).2).created) :=
  ⟨printJob4_cleanup env j, printJob6_cleanup env j, printImages2_ok_cleanup env j⟩

/-- C1 (witness): a successful `part_002` run does clean up. -/
theorem C1_amended_witness :
    (printImages2 benignEnv jobQ3).1 = .ok () ∧
    (printImages2 benignEnv jobQ3).2.deleted = (printImages2 benignEnv jobQ3).2.created :=
  ⟨by decide, (C1_amended benignEnv jobQ3).2.2 (by decide)⟩

/-- C2 (counterexample): in the first `index.js` revision of `printJob`, a
PDF whose render wait times out (the oracle at index 0 reports `timeout`,
and the run performs exactly one render wait) is silently printed anyway
and the job reports success — the render timeout does not surface as a
job-ending error. -/
theorem C2_counterexample :
    envRenderTimeout.renders 0 = RenderRes.timeout ∧
    (printJob1 envRenderTimeout jobOnePdf).2.rendersC = 1 ∧
    (printJob1 envRenderTimeout jobOnePdf).1 = .ok () ∧
    (printJob1 envRenderTimeout jobOnePdf).2.subs = [1] := by decide

/-- C2 (amended): in `part_002`'s `printImages`, the second `index.js`
revision, `part_004` and `part_006`, every per-file failure is job-fatal
with no retry and no skip: a run can return success only if every fallible
step it consulted (page load, download, conversion, rasterization, PDF.js
render wait, print submission) succeeded — contrapositively, the first
failing step of any kind aborts the whole job — and a first-file PDF
render timeout surfaces as the render-timeout job error with zero print
submissions.  In the first `index.js` revision, by contrast, the PDF
render-wait failure is swallowed (`catch (e) { console.log(...) }`) and
the file is printed anyway (see the counterexample). -/
theorem C2_amended :
    (∀ (env : Env) (j : Job),
      (printImages2 env j).1 = .ok () → OkSeg env st0 (printImages2 env j).2) ∧
    (∀ (env : Env) (j : Job),
      (printJob2 env j).1 = .ok () → OkSeg env st0 (printJob2 env j).2) ∧
    (∀ (env : Env) (j : Job),
      (printJob4 env j).1 = .ok () → OkSeg env st0 (printJob4 env j).2) ∧
    (∀ (env : Env) (j : Job),
      (printJob6 env j).1 = .ok () → OkSeg env st0 (printJob6 env j).2) ∧
    (∀ (env : Env) (j : Job) (u : String) (us : List String) (d : Option String),
      j.images_urls = u :: us → isPdf j u 0 = true →
      resolvePrinter (jobDevice j) env.printers = .ok d →
      env.loadOk = (fun _ => true) → env.renders = (fun _ => RenderRes.timeout) →
      (printJob2 env j).1 = .error .renderTimeout ∧ (printJob2 env j).2.subs = []) ∧
    (∀ (env : Env) (j : Job) (u : String) (us : List String) (d : Option String),
      j.images_urls = u :: us → getFileType6 j u 0 = .pdf →
      isDocument j u 0 = false → isPdf j u 0 = true → env.libreInstalled = true →
      resolvePrinter (jobDevice j) env.printers = .ok d →
      env.loadOk = (fun _ => true) → env.renders = (fun _ => RenderRes.timeout) →
      ((printJob6 env j).1 = .error .renderTimeout ∧ (printJob6 env j).2.subs = []) ∧
      ((printJob4 env j).1 = .error .renderTimeout ∧ (printJob4 env j).2.subs = [])) :=
  ⟨printImages2_firstErrorAbort, printJob2_firstErrorAbort, printJob4_firstErrorAbort,
   printJob6_firstErrorAbort,
   fun env j u us d hu hpdf hres hload hrt =>
     printJob2_renderTimeout env j u us d hu hpdf hres hload hrt,
   fun env j u us d hu hft6 hdoc hpdf hlib hres hload hrt =>
     ⟨printJob6_renderTimeout env j u us d hu hft6 hres hload hrt,
      printJob4_renderTimeout env j u us d hu hdoc hpdf hlib hres hload hrt⟩⟩

/-- C2 (witness): a successful part_002 run consulted only succeeding
steps, and the render-timeout abort at a concrete PDF job in the second
`index.js` revision, `part_006` and `part_004`. -/
theorem C2_amended_witness :
    (printImages2 benignEnv jobOnePdf).1 = .ok () ∧
    OkSeg benignEnv st0 (printImages2 benignEnv jobOnePdf).2 ∧
    (printJob2 envRenderTimeout jobOnePdf).1 = .error .renderTimeout ∧
    (printJob2 envRenderTimeout jobOnePdf).2.subs = [] ∧
    (printJob6 envRenderTimeout jobOnePdf).1 = .error .renderTimeout ∧
    (printJob4 envRenderTimeout jobOnePdf).1 = .error .renderTimeout := by
  obtain ⟨h1, h2, h3, h4, h5, h6⟩ := C2_amended
  have ha := h5 envRenderTimeout jobOnePdf "https://x/doc.pdf" [] (some "HP LaserJet")
    rfl (by decide) (by decide) rfl rfl
  have hb := h6 envRenderTimeout jobOnePdf "https://x/doc.pdf" [] (some "HP LaserJet")
    rfl (by decide) (by decide) (by decide) rfl (by decide) rfl rfl
  exact ⟨by decide, h1 benignEnv jobOnePdf (by decide), ha.1, ha.2, hb.1.1, hb.2.1⟩

/-- C3 (counterexample): `part_004`'s `printJob` ignores `quantity`: a job
with `quantity = 3` and one image URL performs exactly one print submission
carrying `copies = 1` — neither 3 submissions nor one with copies = 3. -/
theorem C3_counterexample :
    jobQ3.quantity = some 3 ∧
    (printJob4 benignEnv jobQ3).1 = .ok () ∧
    (printJob4 benignEnv jobQ3).2.subs = [1] := by decide

/-- C3 (amended): for a quantity-3 single-image job in a benign
environment, the first `index.js` orchestrator and `part_006` make exactly
3 submissions of one copy each, `part_002`'s all-image path makes exactly
one submission with `copies = 3`, but `part_004` makes exactly one
submission with `copies = 1` (it expects `images_urls` pre-expanded by
quantity and ignores the field). -/
theorem C3_amended (env : Env) (p : Printer) (u : String)
    (hprn : env.printers = [p])
    (hload : env.loadOk = fun _ => true)
    (hprint : env.printOk = fun _ => true)
    (himg : getFileType (mkJob3 u) u 0 = .image)
    (himg6 : getFileType6 (mkJob3 u) u 0 = .image)
    (hnp : isPdf (mkJob3 u) u 0 = false)
    (hnd : isDocument (mkJob3 u) u 0 = false) :
    ((printJob1 env (mkJob3 u)).1 = .ok () ∧ (printJob1 env (mkJob3 u)).2.subs = [1, 1, 1]) ∧
    ((printImages2 env (mkJob3 u)).1 = .ok () ∧ (printImages2 env (mkJob3 u)).2.subs = [3]) ∧
    ((printJob6 env (mkJob3 u)).1 = .ok () ∧ (printJob6 env (mkJob3 u)).2.subs = [1, 1, 1]) ∧
    ((printJob4 env (mkJob3 u)).1 = .ok () ∧ (printJob4 env (mkJob3 u)).2.subs = [1]) := by
  have hju : (mkJob3 u).images_urls = [u] := rfl
  have hjq : effQtyNat (mkJob3 u).quantity = 3 := by
    rw [show (mkJob3 u).quantity = some 3 from rfl]
    decide
  have hjd : jobDevice (mkJob3 u) = none := rfl
  have hres : ∃ d, resolvePrinter (jobDevice (mkJob3 u)) env.printers = .ok d := by
    rw [hjd, hprn]
    unfold resolvePrinter
    cases hfd : [p].find? (fun q => q.isDefault) with
    | none => exact ⟨some p.name, by simp [hfd]⟩
    | some d => exact ⟨some d.name, by simp [hfd]⟩
  obtain ⟨d, hres⟩ := hres
  refine ⟨?_, ?_, ?_, ?_⟩
  · unfold printJob1
    simp only [hju, hjq, hres]
    simp only [p1_qty, hju, p1_files, p1_file, himg]
    simp [loadStep1, printStep, hprint, st0]
  · unfold printImages2
    simp only [hju]
    have hall : allImagesFrom (mkJob3 u) [u] 0 = true := by
      simp [allImagesFrom, hnp]
    simp only [hall]
    simp [p2_allPath, loadStepR, hload, hres, printStep, hprint, hjq, st0]
  · unfold printJob6
    simp only [hju, hjq, hres]
    simp only [p6_qty, hju, p6_files, p6_file, himg6]
    simp [needsConversion, imagePrintPath, loadStepR, hload, printStep, hprint, st0, cleanupAll]
  · unfold printJob4
    have hdocs : hasDocsFrom (mkJob3 u) [u] 0 = false := by
      simp [hasDocsFrom, hnd]
    simp only [hju, hdocs, hres]
    simp only [p4_files, hju, p4_file, hnd, hnp]
    simp [imagePrintPath, loadStepR, hload, printStep, hprint, st0dir, cleanupAll]

/-- C3 (witness): the amended quantity behaviour at a concrete job. -/
theorem C3_amended_witness :
    (printJob1 benignEnv jobQ3).2.subs = [1, 1, 1] ∧
    (printImages2 benignEnv jobQ3).2.subs = [3] ∧
    (printJob6 benignEnv jobQ3).2.subs = [1, 1, 1] ∧
    (printJob4 benignEnv jobQ3).2.subs = [1] := by
  have h := C3_amended benignEnv samplePrinter "https://x/a.png"
    rfl rfl rfl (by decide) (by decide) (by decide) (by decide)
  exact ⟨h.1.2, h.2.1.2, h.2.2.1.2, h.2.2.2.2⟩

/-- C4 (counterexample): in `part_002`'s `printImages` (all-image path), an
empty printer list does make the job fail with "No printers found.", but
only after the page HTML has been loaded into the print window: rendering
work has begun before resolution fails, so the fail-fast ordering of the
claim does not hold for this revision. -/
theorem C4_counterexample :
    (printImages2 envNoPrinters jobOneImage).1 = .error .noPrinters ∧
    (printImages2 envNoPrinters jobOneImage).2.work = true := by decide

/-- C4 (amended): in the `index.js`, `part_004` and `part_006` orchestrators
an empty live printer list makes the job fail with "No printers found."
before any rendering or conversion work and with zero submissions; in
`part_002`'s `printImages` the device is resolved only after the first page
load (and, on the mixed path, after PDF rasterization), so work can precede
the failure. -/
theorem C4_amended (env : Env) (j : Job) (u : String) (us : List String)
    (hu : j.images_urls = u :: us) (hp : env.printers = [])
    (hlib : env.libreInstalled = true) :
    ((printJob1 env j).1 = .error .noPrinters ∧ (printJob1 env j).2.work = false ∧
      (printJob1 env j).2.subs = []) ∧
    ((printJob4 env j).1 = .error .noPrinters ∧ (printJob4 env j).2.work = false ∧
      (printJob4 env j).2.subs = []) ∧
    ((printJob6 env j).1 = .error .noPrinters ∧ (printJob6 env j).2.work = false ∧
      (printJob6 env j).2.subs = []) := by
  refine ⟨?_, ?_, ?_⟩
  · rw [printJob1_emptyPrinters env j u us hu hp]
    exact ⟨rfl, rfl, rfl⟩
  · rw [printJob4_emptyPrinters env j u us hu hp hlib]
    exact ⟨rfl, rfl, rfl⟩
  · rw [printJob6_emptyPrinters env j u us hu hp]
    exact ⟨rfl, rfl, rfl⟩

/-- C4 (witness): the fail-fast behaviour at a concrete job. -/
theorem C4_amended_witness :
    envNoPrinters.printers = [] ∧
    (printJob1 envNoPrinters jobOnePdf).1 = .error .noPrinters ∧
    (printJob1 envNoPrinters jobOnePdf).2.work = false ∧
    (printJob4 envNoPrinters jobOnePdf).1 = .error .noPrinters ∧
    (printJob6 envNoPrinters jobOnePdf).1 = .error .noPrinters := by
  have h := C4_amended envNoPrinters jobOnePdf "https://x/doc.pdf" [] rfl rfl rfl
  exact ⟨rfl, h.1.1, h.1.2.1, h.2.1.1, h.2.2.1⟩

/-- C5 (confirmed): in every orchestrator revision, a job requesting a
device name absent by exact match from a non-empty live printer list fails
with the printer-not-found error naming that device, and zero print
submissions are made (for `part_002`, whose resolution is lazy, under the
proviso that no step fails before resolution: loads succeed and
rasterization yields at least one page). -/
theorem C5_theorem (env : Env) (j : Job) (dn : String) (p : Printer)
    (ps : List Printer) (u : String) (us : List String) (r : Nat)
    (hu : j.images_urls = u :: us)
    (hdev : jobDevice j = some dn)
    (hprn : env.printers = p :: ps)
    (hfound : ((p :: ps).any (fun q => q.name == dn)) = false)
    (hlib : env.libreInstalled = true)
    (hload : env.loadOk = fun _ => true)
    (hrast : env.raster = fun _ => some (r + 1)) :
    ((printJob1 env j).1 = .error (.printerNotFound dn) ∧ (printJob1 env j).2.subs = []) ∧
    ((printImages2 env j).1 = .error (.printerNotFound dn) ∧
      (printImages2 env j).2.subs = []) ∧
    ((printJob4 env j).1 = .error (.printerNotFound dn) ∧ (printJob4 env j).2.subs = []) ∧
    ((printJob6 env j).1 = .error (.printerNotFound dn) ∧ (printJob6 env j).2.subs = []) := by
  refine ⟨?_, ?_, ?_, ?_⟩
  · rw [printJob1_notFound env j dn p ps u us hu hdev hprn hfound]
    exact ⟨rfl, rfl⟩
  · exact printImages2_notFound env j dn p ps u us r hu hdev hprn hfound hload hrast
  · rw [printJob4_notFound env j dn p ps u us hu hdev hprn hfound hlib]
    exact ⟨rfl, rfl⟩
  · rw [printJob6_notFound env j dn p ps u us hu hdev hprn hfound]
    exact ⟨rfl, rfl⟩

/-- C5 (witness): requesting the absent device "Canon" against a list
holding only "HP LaserJet". -/
theorem C5_witness :
    (benignEnv.printers.any (fun q => q.name == "Canon")) = false ∧
    (printJob1 benignEnv jobDevCanon).1 = .error (.printerNotFound "Canon") ∧
    (printJob1 benignEnv jobDevCanon).2.subs = [] ∧
    (printImages2 benignEnv jobDevCanon).1 = .error (.printerNotFound "Canon") ∧
    (printJob4 benignEnv jobDevCanon).1 = .error (.printerNotFound "Canon") ∧
    (printJob6 benignEnv jobDevCanon).1 = .error (.printerNotFound "Canon") := by
  have h := C5_theorem benignEnv jobDevCanon "Canon" samplePrinter [] "https://x/a.png" [] 1
    rfl rfl rfl (by decide) rfl rfl rfl
  exact ⟨by decide, h.1.1, h.1.2, h.2.1.1, h.2.2.1.1, h.2.2.2.1⟩

/-- C6 (counterexample): the `net.request` downloader of `index.js` and
`part_006` resolves the buffered body of a 404 response as a successful
download: a non-2xx response is not rejected. -/
theorem C6_counterexample :
    downloadFileNet w404 "https://x/f.docx" = .ok ∧
    w404 "https://x/f.docx" = .resp 404 "" ∧
    ¬(200 ≤ 404 ∧ 404 ≤ 299) := by decide

/-- C6 (amended): `part_004`'s `https.get` downloader follows
301/302/307/308 redirects to the `Location` target and rejects every other
non-200 status as a download failure; the `net.request` downloaders of
`index.js` and `part_006` leave redirect handling to the network stack and
accept any response status, resolving the body even for non-2xx. -/
theorem C6_amended :
    (∀ (w : String → HttpResp) (fuel : Nat) (url : String) (s : Nat) (loc : String),
      w url = .resp s loc → isRedirectStatus s = true →
      downloadFile4 w (fuel + 1) url = downloadFile4 w fuel loc) ∧
    (∀ (w : String → HttpResp) (fuel : Nat) (url : String) (s : Nat) (loc : String),
      w url = .resp s loc → isRedirectStatus s = false → s ≠ 200 →
      downloadFile4 w (fuel + 1) url = .statusErr s) ∧
    (∀ (w : String → HttpResp) (fuel : Nat) (url loc : String),
      w url = .resp 200 loc →
      downloadFile4 w (fuel + 1) url = .ok) ∧
    (∀ (w : String → HttpResp) (url : String) (s : Nat) (loc : String),
      w url = .resp s loc → downloadFileNet w url = .ok) := by
  refine ⟨?_, ?_, ?_, ?_⟩
  · intro w fuel url s loc hw hr
    simp only [downloadFile4, hw]
    simp [hr]
  · intro w fuel url s loc hw hr hs
    simp only [downloadFile4, hw]
    simp [hr, hs]
  · intro w fuel url loc hw
    simp only [downloadFile4, hw]
    simp [isRedirectStatus]
  · intro w url s loc hw
    unfold downloadFileNet
    rw [hw]

/-- C6 (witness): one redirect hop is followed, a 404 is rejected by the
`part_004` downloader, and the `net.request` downloader accepts it. -/
theorem C6_amended_witness :
    wRedirect "https://x/r" = .resp 302 "https://x/f" ∧
    isRedirectStatus 302 = true ∧
    downloadFile4 wRedirect 2 "https://x/r" = downloadFile4 wRedirect 1 "https://x/f" ∧
    downloadFile4 w404 1 "https://x/a.docx" = .statusErr 404 ∧
    downloadFileNet w404 "https://x/a.docx" = .ok := by
  obtain ⟨ha, hb, hc, hd⟩ := C6_amended
  exact ⟨rfl, rfl, ha wRedirect 1 "https://x/r" 302 "https://x/f" rfl rfl,
    hb w404 0 "https://x/a.docx" 404 "" rfl (by decide) (by decide),
    hd w404 "https://x/a.docx" 404 "" rfl⟩

/-- C7 (counterexample): for the URL "https://x/file.pdf" with the
non-empty, category-less hint "zzz" (which contradicts pdf), `getFileType`
does fall through to URL sniffing and returns pdf, but the `isPdf`
classifier decides non-PDF from the hint alone, against the URL sniff —
so classification does not always fall through. -/
theorem C7_counterexample :
    getFileType jobHintZzz "https://x/file.pdf" 0 = .pdf ∧
    isPdf jobHintZzz "https://x/file.pdf" 0 = false ∧
    isPdfUrl "https://x/file.pdf" = true ∧
    ftAt jobHintZzz 0 = "zzz" := by decide

/-- C7 (amended): in `getFileType` a non-empty hint matching no category
token falls through to URL-extension sniffing; but in the `isPdf`
classifier any non-empty hint not containing "pdf" short-circuits to
non-PDF without consulting the URL. -/
theorem C7_amended :
    (∀ (j : Job) (url : String) (i : Nat),
      (lowerStr (ftAt j i) == "") = false →
      hintKind (lowerStr (ftAt j i)) = none →
      getFileType j url i = urlKind (lowerStr url)) ∧
    (∀ (j : Job) (url : String) (i : Nat),
      (lowerStr (ftAt j i) == "") = false →
      containsStr (lowerStr (ftAt j i)) "pdf" = false →
      isPdf j url i = false) := by
  constructor
  · intro j url i h1 h2
    unfold getFileType
    simp [h1, h2]
  · intro j url i h1 h2
    have hp1 : (lowerStr (ftAt j i) == "pdf") = false := by
      cases hq : lowerStr (ftAt j i) == "pdf"
      · rfl
      · exfalso
        have := eq_of_beq hq
        rw [this] at h2
        exact absurd h2 (by decide)
    have hp2 : (lowerStr (ftAt j i) == "application/pdf") = false := by
      cases hq : lowerStr (ftAt j i) == "application/pdf"
      · rfl
      · exfalso
        have := eq_of_beq hq
        rw [this] at h2
        exact absurd h2 (by decide)
    unfold isPdf
    simp [h1, h2, hp1, hp2]
    intro hq
    exfalso
    rw [hq] at h1
    simp at h1

/-- C7 (witness): the hint "zzz" falls through in `getFileType` and
short-circuits in `isPdf`. -/
theorem C7_amended_witness :
    getFileType jobHintZzz "https://x/file.pdf" 0 = urlKind (lowerStr "https://x/file.pdf") ∧
    isPdf jobHintZzz "https://x/file.pdf" 0 = false :=
  ⟨C7_amended.1 jobHintZzz "https://x/file.pdf" 0 (by decide) (by decide),
   C7_amended.2 jobHintZzz "https://x/file.pdf" 0 (by decide) (by decide)⟩

/-- C8 (confirmed): with no hint and a URL matching no entry of the fixed
extension table, both `getFileType` revisions classify the file as image;
and classification is a function of the (url, hint) pair alone, hence
deterministic. -/
theorem C8_theorem (j : Job) (url : String) (i : Nat)
    (hft : ftAt j i = "")
    (hm : matchesAnyExt (lowerStr url) = false) :
    getFileType j url i = .image ∧ getFileType6 j url i = .image ∧
    (∀ (j1 j2 : Job) (i1 i2 : Nat) (u : String),
      ftAt j1 i1 = ftAt j2 i2 → getFileType j1 u i1 = getFileType j2 u i2) := by
  unfold matchesAnyExt at hm
  obtain ⟨hm, h14⟩ := bor_false_split hm
  obtain ⟨hm, h13⟩ := bor_false_split hm
  obtain ⟨hm, h12⟩ := bor_false_split hm
  obtain ⟨hm, h11⟩ := bor_false_split hm
  obtain ⟨hm, h10⟩ := bor_false_split hm
  obtain ⟨hm, h9⟩ := bor_false_split hm
  obtain ⟨hm, h8⟩ := bor_false_split hm
  obtain ⟨hm, h7⟩ := bor_false_split hm
  obtain ⟨hm, h6⟩ := bor_false_split hm
  obtain ⟨hm, h5⟩ := bor_false_split hm
  obtain ⟨hm, h4⟩ := bor_false_split hm
  obtain ⟨hm, h3⟩ := bor_false_split hm
  obtain ⟨h1, h2⟩ := bor_false_split hm
  have hUK : urlKind (lowerStr url) = .image := by
    unfold urlKind
    simp only [h1, h2, h3, h4, h5, h6, h7, h8, h9, h10, h11, h12, h13, h14]
    simp
  refine ⟨?_, ?_, ?_⟩
  · unfold getFileType
    rw [hft, show lowerStr "" = "" from rfl]
    simpa using hUK
  · unfold getFileType6
    rw [hft, show lowerStr "" = "" from rfl]
    simpa using hUK
  · intro j1 j2 i1 i2 u hh
    unfold getFileType
    rw [hh]

/-- C8 (witness): the extensionless URL of the spec's example defaults to
image in both revisions. -/
theorem C8_witness :
    ftAt jobOneImage 0 = "" ∧
    matchesAnyExt (lowerStr "https://x/file") = false ∧
    getFileType jobOneImage "https://x/file" 0 = .image ∧
    getFileType6 jobOneImage "https://x/file" 0 = .image := by
  have h := C8_theorem jobOneImage "https://x/file" 0 rfl (by decide)
  exact ⟨rfl, by decide, h.1, h.2.1⟩

/-- C9 (confirmed): `Math.max(1, parseInt(quantity, 10) || 1)` maps a
missing/non-numeric quantity, zero and every negative value to 1, is always
at least 1 (every accepted job prints each file at least once), and passes
positive values through; quantity is never rejected. -/
theorem C9_theorem :
    effectiveQty none = 1 ∧ effectiveQty (some 0) = 1 ∧
    (∀ n : Int, n ≤ 0 → effectiveQty (some n) = 1) ∧
    (∀ q : Option Int, 1 ≤ effectiveQty q) ∧
    (∀ n : Int, 1 ≤ n → effectiveQty (some n) = n) := by
  refine ⟨rfl, rfl, ?_, ?_, ?_⟩
  · intro n hn
    simp only [effectiveQty]
    by_cases h : n = 0
    · simp [h]
    · rw [if_neg h]; omega
  · intro q
    exact le_max_left _ _
  · intro n hn
    simp only [effectiveQty]
    rw [if_neg (by omega)]
    omega

/-- C9 (witness): the clamping at concrete quantities. -/
theorem C9_witness :
    (-5 : Int) ≤ 0 ∧ effectiveQty (some (-5)) = 1 ∧
    1 ≤ effectiveQty (some (-5)) ∧ effectiveQty (some 7) = 7 := by
  obtain ⟨h1, h2, h3, h4, h5⟩ := C9_theorem
  exact ⟨by decide, h3 (-5) (by decide), h4 (some (-5)), h5 7 (by decide)⟩

/-- C10 (confirmed): printer enumeration is total — `getPrintersList`
returns the enumerated list on success and the empty list for a missing
`webContents`, a throwing OS query, or an absent API, never propagating
the exception; and an empty list surfaces to the job as the "No printers
found." error, so an OS-level enumeration failure is reported as that
error rather than a distinct one. -/
theorem C10_theorem :
    getPrintersList none = [] ∧
    (∀ ps, getPrintersList (some (.hasAsync (.ok ps))) = ps) ∧
    (∀ ps, getPrintersList (some (.hasSync (.ok ps))) = ps) ∧
    getPrintersList (some (.hasAsync (.error ()))) = [] ∧
    getPrintersList (some (.hasSync (.error ()))) = [] ∧
    getPrintersList (some .neither) = [] ∧
    (∀ (dev : Option String) (src : Option PrinterQuery), getPrintersList src = [] →
      resolvePrinter dev (getPrintersList src) = .error .noPrinters) ∧
    (∀ (env : Env) (j : Job) (u : String) (us : List String), j.images_urls = u :: us →
      env.printers = getPrintersList (some (.hasAsync (.error ()))) →
      printJob1 env j = (.error .noPrinters, st0)) := by
  refine ⟨rfl, fun _ => rfl, fun _ => rfl, rfl, rfl, rfl, ?_, ?_⟩
  · intro dev src h
    rw [h]
    rfl
  · intro env j u us hu hp
    exact printJob1_emptyPrinters env j u us hu (by simpa using hp)

/-- C10 (witness): a throwing enumeration yields the empty list and the
"No printers found." job error. -/
theorem C10_witness :
    getPrintersList (some (.hasAsync (.error ()))) = [] ∧
    resolvePrinter none (getPrintersList (some (.hasAsync (.error ())))) =
      .error .noPrinters ∧
    printJob1 envNoPrinters jobOneImage = (.error .noPrinters, st0) := by
  obtain ⟨h1, h2, h3, h4, h5, h6, h7, h8⟩ := C10_theorem
  exact ⟨rfl, h7 none (some (.hasAsync (.error ()))) rfl,
    h8 envNoPrinters jobOneImage "https://x/a.png" [] rfl rfl⟩
